import Mathlib

/-!
Verification of the VitalTrack backend's offline-first synchronization
engine (`app/api/v1/sync.py`, `app/api/v1/orders.py` and the SQLAlchemy
models under `app/models/`), as a shallow embedding in Lean.

Modelling conventions, stated once here:

* Python's dynamic JSON payload values become the scalar type `Value`
  (`str`, `int`, `bool`, `None`).  The one place the sync routes read a
  nested structure - the `"items"` key of an order payload, a list of
  dicts of scalars - is carried on the operation as its own typed field
  `itemsData`, standing for `op.data["items"]`.
* A SQLAlchemy ORM row becomes a Lean structure whose columns have type
  `Value`, because the dynamic `setattr` update path of `_sync_category`
  can write a payload value of any runtime type into any column.
* The async session becomes explicit state passing over `Store`; an
  exception raised inside a handler becomes a returned failed
  `SyncOperationResult` carrying the store as mutated so far, which is
  what the `try/except` around each operation in `sync_push` produces.
* `flush()` is modelled at the record-store interface: inserting a row
  that violates a NOT NULL column or the global UNIQUE constraint on
  `orders.order_id` fails that one operation and stores nothing.
* Server-generated UUID primary keys and the random `uuid4` suffix used
  for order-code disambiguation become draws from the deterministic
  counter `Store.nextId`.
* `datetime.now(timezone.utc)` becomes the opaque token `nowV`; ISO
  datetime parsing (`_parse_datetime`) keeps the raw value, since no
  verified property inspects a timestamp.
* The session is created with `autoflush=False` (`database.py`), so a
  query sees the database as of the most recent `flush()` - and the only
  flushes during a push are the ones on the three insert paths, each of
  which pushes every pending session change at once.  `Store` models the
  session; the state the database shows at orphan-cleanup time is
  recovered as `dbImage`, the session state at the last insert.  The
  cleanup queries and the category referential check read that image,
  while the rows they delete (and the commit-time `ondelete=CASCADE`
  effects) apply to the session state.
-/

namespace VitalTrack

/-- A Python/JSON scalar value as it appears in a sync payload. -/
inductive Value where
  | vStr (s : String)
  | vInt (n : Int)
  | vBool (b : Bool)
  | vNull
deriving DecidableEq, Repr, Inhabited

/-- Python truthiness (`if value:`). -/
def Value.truthy : Value → Bool
  | .vStr s => !s.isEmpty
  | .vInt n => n != 0
  | .vBool b => b
  | .vNull => false

/-- Python `str(value)`, as `_is_valid_uuid` applies it to a payload value. -/
def Value.pyStr : Value → String
  | .vStr s => s
  | .vInt n => toString n
  | .vBool true => "True"
  | .vBool false => "False"
  | .vNull => "None"

/-- The integer held by a `Value`, for arithmetic on quantities. -/
def Value.intOf : Value → Int
  | .vInt n => n
  | _ => 0

/-- A payload dict (`op.data`): association list in insertion order. -/
abbrev Payload := List (String × Value)

/-- Python `d.get(k)`: `none` when the key is absent. -/
def dget (d : Payload) (k : String) : Option Value :=
  (d.find? (fun kv => kv.1 == k)).map (fun kv => kv.2)

/-- Python `d.get(k, default)`. -/
def dgetD (d : Payload) (k : String) (dflt : Value) : Value :=
  (dget d k).getD dflt

/-- Python `k in d`. -/
def dmem (d : Payload) (k : String) : Bool :=
  (d.find? (fun kv => kv.1 == k)).isSome

/-- `_camel_to_snake` from `sync.py`: prepend `_` to each upper-case
letter, lower-case it, then strip leading underscores. -/
def camelToSnake (name : String) : String :=
  String.mk (((name.toList.foldl
    (fun acc c => if c.isUpper then acc ++ ['_', c.toLower] else acc ++ [c])
    [])).dropWhile (fun c => c == '_'))

/-- Hexadecimal digit test (both cases), for UUID syntax. -/
def isHexChar (c : Char) : Bool :=
  c.isDigit || ('a' ≤ c && c ≤ 'f') || ('A' ≤ c && c ≤ 'F')

/-- `_is_valid_uuid` from `sync.py`: `uuid.UUID(str(val))` succeeds exactly
when, after dropping dashes, 32 hex digits remain (the `urn:`/brace forms
Python also accepts are not modelled; no identifier in the system uses
them). -/
def isValidUuid (s : String) : Bool :=
  let t := s.toList.filter (fun c => c != '-')
  t.length == 32 && t.all isHexChar

/-- Hex digit character for server-id generation. -/
def hexChar (n : Nat) : Char :=
  if n < 10 then Char.ofNat (48 + n) else Char.ofNat (97 + (n - 10))

/-- Hex digits of `n`, most significant first, up to `fuel` digits
(structural recursion so that concrete stores evaluate by `decide`). -/
def toHexAux : Nat → Nat → List Char
  | 0, _ => []
  | fuel + 1, n => if n == 0 then [] else toHexAux fuel (n / 16) ++ [hexChar (n % 16)]

/-- The server-assigned UUID primary key drawn for counter value `n`
(models the `uuid4` column default of `UUIDMixin`). -/
def mkServerId (n : Nat) : String :=
  let h := toHexAux 12 n
  "00000000-0000-0000-0000-" ++ String.mk (List.replicate (12 - h.length) '0' ++ h)

/-- The 8-character suffix `str(uuid.uuid4())[:8].upper()` drawn for
counter value `n` (the randomness is modelled as a fresh supply). -/
def mkSuffix (n : Nat) : String :=
  let h := (toHexAux 8 n).map Char.toUpper
  String.mk (List.replicate (8 - h.length) '0' ++ h)

/-- Opaque stand-in for `datetime.now(timezone.utc)`. -/
def nowV : Value := .vStr "server-time"

/-- `_parse_datetime` from `sync.py`, at the granularity the proofs need:
a string parses to itself (ISO-validity is not modelled, no claim reads a
timestamp back), a datetime passes through, anything else gives `None`. -/
def parseDatetimeV : Value → Value
  | .vStr s => .vStr s
  | _ => .vNull

/-- A row of `categories` (`app/models/category.py`), with the
`TimestampMixin`/`UUIDMixin` columns that matter to the sync routes. -/
structure CategoryR where
  id : Value
  user_id : Value
  name : Value
  description : Value
  display_order : Value
  is_default : Value
  local_id : Value
  created_at : Value
  updated_at : Value
deriving DecidableEq, Repr

/-- A row of `items` (`app/models/item.py`). -/
structure ItemR where
  id : Value
  user_id : Value
  category_id : Value
  name : Value
  description : Value
  quantity : Value
  unit : Value
  minimum_stock : Value
  expiry_date : Value
  brand : Value
  notes : Value
  supplier_name : Value
  supplier_contact : Value
  purchase_link : Value
  image_uri : Value
  is_active : Value
  is_critical : Value
  local_id : Value
  created_at : Value
  updated_at : Value
deriving DecidableEq, Repr

/-- Order status enum (`app/models/order.py`). -/
inductive OrderStatus where
  | pending
  | ordered
  | partially_received
  | received
  | stock_updated
  | declined
deriving DecidableEq, Repr

/-- `OrderStatus(value)` on a payload value: the constructor of the
str-enum raises `ValueError` unless the value is one of the six strings. -/
def parseStatus : Value → Option OrderStatus
  | .vStr "pending" => some .pending
  | .vStr "ordered" => some .ordered
  | .vStr "partially_received" => some .partially_received
  | .vStr "received" => some .received
  | .vStr "stock_updated" => some .stock_updated
  | .vStr "declined" => some .declined
  | _ => none

/-- A row of `orders` (`app/models/order.py`). -/
structure OrderR where
  id : Value
  user_id : Value
  order_id : Value
  total_items : Value
  total_units : Value
  status : OrderStatus
  exported_at : Value
  ordered_at : Value
  received_at : Value
  applied_at : Value
  declined_at : Value
  local_id : Value
  created_at : Value
  updated_at : Value
deriving DecidableEq, Repr

/-- A row of `order_items` (`app/models/order.py`). -/
structure OrderItemR where
  id : Value
  order_id : Value
  item_id : Value
  name : Value
  brand : Value
  unit : Value
  quantity : Value
  current_stock : Value
  minimum_stock : Value
  image_uri : Value
  supplier_name : Value
  purchase_link : Value
deriving DecidableEq, Repr

/-- The per-request view of the transactional record store, plus the
fresh-identifier supply. -/
structure Store where
  categories : List CategoryR
  items : List ItemR
  orders : List OrderR
  orderItems : List OrderItemR
  nextId : Nat
deriving DecidableEq, Repr

/-- The empty store. -/
def Store.empty : Store := ⟨[], [], [], [], 0⟩

/-- `SyncOperationType` (`app/schemas/sync.py`). -/
inductive SyncOperationType where
  | create
  | update
  | delete
deriving DecidableEq, Repr

/-- `SyncEntityType` (`app/schemas/sync.py`). -/
inductive SyncEntityType where
  | category
  | item
  | order
deriving DecidableEq, Repr

/-- `SyncOperation` (`app/schemas/sync.py`).  `timestamp` and
`retry_count` are omitted: the sync routes never read them.  `itemsData`
carries `data["items"]` (an order payload's list of line-item dicts) in
typed form; it is  `none` exactly when `data` is `none` or lacks the
`"items"` key, and the `"items"` key is kept out of the scalar `data`
list. -/
structure SyncOperation where
  id : String
  type : SyncOperationType
  entity : SyncEntityType
  entity_id : String
  local_id : String
  data : Option Payload
  itemsData : Option (List Payload)
deriving DecidableEq, Repr

/-- `SyncOperationResult` (`app/schemas/sync.py`). -/
structure SyncOperationResult where
  operation_id : String
  success : Bool
  entity_id : Option String := none
  server_id : Option String := none
  error : Option String := none
deriving DecidableEq, Repr

/-- The failed result the `except` block of `sync_push` builds from a
raised exception. -/
def exnResult (opId msg : String) : SyncOperationResult :=
  { operation_id := opId, success := false, error := some msg }

/-- `Result.scalar_one_or_none()`: `none` for no row, the row if unique,
and a raised `MultipleResultsFound` otherwise. -/
def scalarOneOrNone {α : Type} (p : α → Bool) (l : List α) : Except String (Option α) :=
  match l.filter p with
  | [] => .ok none
  | [x] => .ok (some x)
  | _ :: _ :: _ => .error "MultipleResultsFound"

/-- Python truthiness of `op.data` (`if op.data:`): a `None` or empty
dict is falsy.  The hidden `"items"` key also counts. -/
def dataTruthy (op : SyncOperation) : Bool :=
  match op.data with
  | none => false
  | some d => !d.isEmpty || op.itemsData.isSome

/-- The `categories` lookup of the CREATE paths: owner and client-local
id (`Category.user_id == uid, Category.local_id == op.local_id`). -/
def catMatchLocal (uid lid : String) (c : CategoryR) : Bool :=
  c.user_id == Value.vStr uid && c.local_id == Value.vStr lid

/-- The `categories` lookup of the UPDATE and DELETE paths:
`Category.id == entity_id` (only when the latter is a syntactically
valid UUID) or `Category.local_id == local_id`, scoped to the owner. -/
def catMatchIdOrLocal (uid eid lid : String) (c : CategoryR) : Bool :=
  c.user_id == Value.vStr uid &&
    ((isValidUuid eid && c.id == Value.vStr eid) || c.local_id == Value.vStr lid)

/-- The Identity Resolver on a payload category reference (`categoryId`),
which may be a server id or a client-local id. -/
def catRefMatch (uid : String) (ref : Value) (c : CategoryR) : Bool :=
  c.user_id == Value.vStr uid &&
    ((isValidUuid ref.pyStr && c.id == ref) || c.local_id == ref)

/-- In-place ORM mutation of the rows satisfying `p`. -/
def updateWhere {α : Type} (p : α → Bool) (f : α → α) (l : List α) : List α :=
  l.map (fun x => if p x then f x else x)

/-- The field writes of the category CREATE-upsert branch
(`_sync_category`, CREATE on an existing row): `name`, `description`,
`displayOrder`, `isDefault` when present, then `updated_at`. -/
def catApplyCreateData (d : Payload) (c : CategoryR) : CategoryR :=
  { c with
    name := if dmem d "name" then dgetD d "name" c.name else c.name
    description := if dmem d "description" then dgetD d "description" c.description else c.description
    display_order := if dmem d "displayOrder" then dgetD d "displayOrder" c.display_order else c.display_order
    is_default := if dmem d "isDefault" then dgetD d "isDefault" c.is_default else c.is_default
    updated_at := nowV }

/-- The attribute names a `Category` ORM row exposes for the dynamic
`hasattr`/`setattr` update path (its mapped columns). -/
def categoryAttrNames : List String :=
  ["id", "user_id", "name", "description", "display_order", "is_default",
   "local_id", "created_at", "updated_at"]

/-- `setattr(category, snakeKey, v)` for a mapped column name. -/
def CategoryR.setAttr (c : CategoryR) (snakeKey : String) (v : Value) : CategoryR :=
  if snakeKey == "id" then { c with id := v }
  else if snakeKey == "user_id" then { c with user_id := v }
  else if snakeKey == "name" then { c with name := v }
  else if snakeKey == "description" then { c with description := v }
  else if snakeKey == "display_order" then { c with display_order := v }
  else if snakeKey == "is_default" then { c with is_default := v }
  else if snakeKey == "local_id" then { c with local_id := v }
  else if snakeKey == "created_at" then { c with created_at := v }
  else if snakeKey == "updated_at" then { c with updated_at := v }
  else c

/-- The dynamic update loop of the category UPDATE branch: for each
payload key in order, translate camelCase to snake_case and write the
value whenever the row has an attribute of that name; then `updated_at`. -/
def catApplyUpdateData (d : Payload) (c : CategoryR) : CategoryR :=
  { d.foldl
      (fun acc kv =>
        if categoryAttrNames.contains (camelToSnake kv.1) then
          acc.setAttr (camelToSnake kv.1) kv.2
        else acc)
      c
    with updated_at := nowV }

/-- NOT NULL columns of `categories` that a payload can null out:
inserting such a row fails `flush()`. -/
def catFlushOk (c : CategoryR) : Bool :=
  c.name != Value.vNull && c.display_order != Value.vNull && c.is_default != Value.vNull

/-- `_sync_category`, CREATE branch (also reached from UPDATE on a
missing row). -/
def syncCategoryCreate (uid : String) (op : SyncOperation) (s : Store) :
    SyncOperationResult × Store :=
  match scalarOneOrNone (catMatchLocal uid op.local_id) s.categories with
  | .error e => (exnResult op.id e, s)
  | .ok (some existing) =>
    let existing' :=
      match op.data with
      | some d => if dataTruthy op then catApplyCreateData d existing else existing
      | none => existing
    ({ operation_id := op.id, success := true, entity_id := some op.entity_id,
       server_id := some existing'.id.pyStr },
     { s with categories := updateWhere (catMatchLocal uid op.local_id)
                (fun _ => existing') s.categories })
  | .ok none =>
    match op.data with
    | none => (exnResult op.id "AttributeError: NoneType has no attribute get", s)
    | some d =>
      let cat : CategoryR :=
        { id := .vStr (mkServerId s.nextId)
          user_id := .vStr uid
          name := dgetD d "name" (.vStr "Untitled")
          description := dgetD d "description" .vNull
          display_order := dgetD d "displayOrder" (.vInt 0)
          is_default := dgetD d "isDefault" (.vBool false)
          local_id := .vStr op.local_id
          created_at := nowV
          updated_at := nowV }
      if catFlushOk cat then
        ({ operation_id := op.id, success := true, entity_id := some op.entity_id,
           server_id := some (mkServerId s.nextId) },
         { s with categories := s.categories ++ [cat], nextId := s.nextId + 1 })
      else
        (exnResult op.id "IntegrityError: NOT NULL constraint failed", s)

/-- `_sync_category`, UPDATE and DELETE branches, with dispatch.  A
DELETE cascades to the category's items (`cascade=all, delete-orphan` /
`ondelete=CASCADE`); a DELETE that finds no row still succeeds. -/
def syncCategory (uid : String) (op : SyncOperation) (s : Store) :
    SyncOperationResult × Store :=
  match op.type with
  | .create => syncCategoryCreate uid op s
  | .update =>
    match scalarOneOrNone (catMatchIdOrLocal uid op.entity_id op.local_id) s.categories with
    | .error e => (exnResult op.id e, s)
    | .ok none => syncCategoryCreate uid op s
    | .ok (some category) =>
      let category' :=
        match op.data with
        | some d => if dataTruthy op then catApplyUpdateData d category else category
        | none => category
      ({ operation_id := op.id, success := true, entity_id := some op.entity_id,
         server_id := some category'.id.pyStr },
       { s with categories := updateWhere (catMatchIdOrLocal uid op.entity_id op.local_id)
                  (fun _ => category') s.categories })
  | .delete =>
    match scalarOneOrNone (catMatchIdOrLocal uid op.entity_id op.local_id) s.categories with
    | .error e => (exnResult op.id e, s)
    | .ok none =>
      ({ operation_id := op.id, success := true, entity_id := some op.entity_id }, s)
    | .ok (some category) =>
      ({ operation_id := op.id, success := true, entity_id := some op.entity_id },
       { s with
         categories := s.categories.filter
           (fun c => !(catMatchIdOrLocal uid op.entity_id op.local_id c))
         items := s.items.filter (fun i => !(i.category_id == category.id)) })

/-- The `items` lookup of the item CREATE paths: owner and client-local
id. -/
def itemMatchLocal (uid lid : String) (i : ItemR) : Bool :=
  i.user_id == Value.vStr uid && i.local_id == Value.vStr lid

/-- The `items` lookup of the item UPDATE and DELETE paths. -/
def itemMatchIdOrLocal (uid eid lid : String) (i : ItemR) : Bool :=
  i.user_id == Value.vStr uid &&
    ((isValidUuid eid && i.id == Value.vStr eid) || i.local_id == Value.vStr lid)

/-- `field_mapping` from `_sync_item`: payload key to column, in source
order. -/
def itemFieldMapping : List (String × String) :=
  [("name", "name"), ("description", "description"), ("quantity", "quantity"),
   ("unit", "unit"), ("minimumStock", "minimum_stock"), ("expiryDate", "expiry_date"),
   ("brand", "brand"), ("notes", "notes"), ("supplierName", "supplier_name"),
   ("supplierContact", "supplier_contact"), ("purchaseLink", "purchase_link"),
   ("imageUri", "image_uri"), ("isActive", "is_active"), ("isCritical", "is_critical")]

/-- `setattr(item, snakeKey, v)` for the mapped columns `field_mapping`
targets. -/
def ItemR.setCol (i : ItemR) (snakeKey : String) (v : Value) : ItemR :=
  if snakeKey == "name" then { i with name := v }
  else if snakeKey == "description" then { i with description := v }
  else if snakeKey == "quantity" then { i with quantity := v }
  else if snakeKey == "unit" then { i with unit := v }
  else if snakeKey == "minimum_stock" then { i with minimum_stock := v }
  else if snakeKey == "expiry_date" then { i with expiry_date := v }
  else if snakeKey == "brand" then { i with brand := v }
  else if snakeKey == "notes" then { i with notes := v }
  else if snakeKey == "supplier_name" then { i with supplier_name := v }
  else if snakeKey == "supplier_contact" then { i with supplier_contact := v }
  else if snakeKey == "purchase_link" then { i with purchase_link := v }
  else if snakeKey == "image_uri" then { i with image_uri := v }
  else if snakeKey == "is_active" then { i with is_active := v }
  else if snakeKey == "is_critical" then { i with is_critical := v }
  else i

/-- The `field_mapping` write loop shared by the item CREATE-upsert and
UPDATE branches (the source duplicates this text), then `updated_at`. -/
def itemApplyData (d : Payload) (i : ItemR) : ItemR :=
  { itemFieldMapping.foldl
      (fun acc m => if dmem d m.1 then acc.setCol m.2 (dgetD d m.1 .vNull) else acc)
      i
    with updated_at := nowV }

/-- The category-reference resolution step shared by the item upsert
paths: when the payload carries a truthy `categoryId`, look it up; a
unique hit rewrites `item.category_id`, a miss is silently ignored, an
ambiguous hit raises. -/
def itemResolveCat (uid : String) (d : Payload) (i : ItemR) (s : Store) :
    Except String ItemR :=
  match dget d "categoryId" with
  | none => .ok i
  | some ref =>
    if ref.truthy then
      match scalarOneOrNone (catRefMatch uid ref) s.categories with
      | .error e => .error e
      | .ok (some cat) => .ok { i with category_id := cat.id }
      | .ok none => .ok i
    else .ok i

/-- NOT NULL columns of `items`: `category_id` (the one the sync path
can actually leave unset) and the columns a payload can null out.  A row
violating one fails `flush()`. -/
def itemFlushOk (i : ItemR) : Bool :=
  i.category_id != Value.vNull && i.name != Value.vNull && i.quantity != Value.vNull &&
    i.unit != Value.vNull && i.minimum_stock != Value.vNull &&
    i.is_active != Value.vNull && i.is_critical != Value.vNull

/-- `_sync_item`, CREATE branch (also reached from UPDATE on a missing
row): upsert on an existing row by local id, else resolve the category
reference and insert. -/
def syncItemCreate (uid : String) (op : SyncOperation) (s : Store) :
    SyncOperationResult × Store :=
  match scalarOneOrNone (itemMatchLocal uid op.local_id) s.items with
  | .error e => (exnResult op.id e, s)
  | .ok (some existing) =>
    match op.data with
    | none =>
      ({ operation_id := op.id, success := true, entity_id := some op.entity_id,
         server_id := some existing.id.pyStr }, s)
    | some d =>
      if dataTruthy op then
        match itemResolveCat uid d existing s with
        | .error e => (exnResult op.id e, s)
        | .ok withCat =>
          let existing' := itemApplyData d withCat
          ({ operation_id := op.id, success := true, entity_id := some op.entity_id,
             server_id := some existing'.id.pyStr },
           { s with items := updateWhere (itemMatchLocal uid op.local_id)
                      (fun _ => existing') s.items })
      else
        ({ operation_id := op.id, success := true, entity_id := some op.entity_id,
           server_id := some existing.id.pyStr }, s)
  | .ok none =>
    match op.data with
    | none => (exnResult op.id "AttributeError: NoneType has no attribute get", s)
    | some d =>
      let resolved : Except String Value :=
        match dget d "categoryId" with
        | none => .ok .vNull
        | some ref =>
          if ref.truthy then
            match scalarOneOrNone (catRefMatch uid ref) s.categories with
            | .error e => .error e
            | .ok (some cat) => .ok cat.id
            | .ok none => .ok .vNull
          else .ok .vNull
      match resolved with
      | .error e => (exnResult op.id e, s)
      | .ok catId =>
        let item : ItemR :=
          { id := .vStr (mkServerId s.nextId)
            user_id := .vStr uid
            category_id := catId
            name := dgetD d "name" (.vStr "Untitled")
            description := dgetD d "description" .vNull
            quantity := dgetD d "quantity" (.vInt 0)
            unit := dgetD d "unit" (.vStr "pieces")
            minimum_stock := dgetD d "minimumStock" (.vInt 0)
            expiry_date := dgetD d "expiryDate" .vNull
            brand := dgetD d "brand" .vNull
            notes := dgetD d "notes" .vNull
            supplier_name := dgetD d "supplierName" .vNull
            supplier_contact := dgetD d "supplierContact" .vNull
            purchase_link := dgetD d "purchaseLink" .vNull
            image_uri := dgetD d "imageUri" .vNull
            is_active := dgetD d "isActive" (.vBool true)
            is_critical := dgetD d "isCritical" (.vBool false)
            local_id := .vStr op.local_id
            created_at := nowV
            updated_at := nowV }
        if itemFlushOk item then
          ({ operation_id := op.id, success := true, entity_id := some op.entity_id,
             server_id := some (mkServerId s.nextId) },
           { s with items := s.items ++ [item], nextId := s.nextId + 1 })
        else
          (exnResult op.id "IntegrityError: NOT NULL constraint failed: items.category_id", s)

/-- `_sync_item`, UPDATE and DELETE branches, with dispatch.  UPDATE on a
missing row falls back to CREATE; DELETE of an absent row still
succeeds. -/
def syncItem (uid : String) (op : SyncOperation) (s : Store) :
    SyncOperationResult × Store :=
  match op.type with
  | .create => syncItemCreate uid op s
  | .update =>
    match scalarOneOrNone (itemMatchIdOrLocal uid op.entity_id op.local_id) s.items with
    | .error e => (exnResult op.id e, s)
    | .ok none => syncItemCreate uid op s
    | .ok (some item) =>
      match op.data with
      | none =>
        ({ operation_id := op.id, success := true, entity_id := some op.entity_id,
           server_id := some item.id.pyStr }, s)
      | some d =>
        if dataTruthy op then
          match itemResolveCat uid d item s with
          | .error e => (exnResult op.id e, s)
          | .ok withCat =>
            let item' := itemApplyData d withCat
            ({ operation_id := op.id, success := true, entity_id := some op.entity_id,
               server_id := some item'.id.pyStr },
             { s with items := updateWhere (itemMatchIdOrLocal uid op.entity_id op.local_id)
                        (fun _ => item') s.items })
        else
          ({ operation_id := op.id, success := true, entity_id := some op.entity_id,
             server_id := some item.id.pyStr }, s)
  | .delete =>
    match scalarOneOrNone (itemMatchIdOrLocal uid op.entity_id op.local_id) s.items with
    | .error e => (exnResult op.id e, s)
    | .ok none =>
      ({ operation_id := op.id, success := true, entity_id := some op.entity_id }, s)
    | .ok (some _) =>
      ({ operation_id := op.id, success := true, entity_id := some op.entity_id },
       { s with
         items := s.items.filter
           (fun i => !(itemMatchIdOrLocal uid op.entity_id op.local_id i)) })

/-- The `orders` lookup of the order CREATE path: client-local id OR the
payload-supplied order code (the latter only when it is truthy), scoped
to the owner. -/
def orderMatchLocalOrCode (uid lid : String) (code : Option Value) (o : OrderR) : Bool :=
  o.user_id == Value.vStr uid &&
    (o.local_id == Value.vStr lid ||
      (match code with
       | some c => c.truthy && o.order_id == c
       | none => false))

/-- The `orders` lookup of the order DELETE path. -/
def orderMatchIdOrLocal (uid eid lid : String) (o : OrderR) : Bool :=
  o.user_id == Value.vStr uid &&
    ((isValidUuid eid && o.id == Value.vStr eid) || o.local_id == Value.vStr lid)

/-- One order line-item row built from a payload dict
(`OrderItem(order_id=..., item_id=item_data.get("itemId") or
item_data.get("id", ""), ...)`). -/
def mkOrderItemRow (oid : Value) (kv : Payload) (sid : String) : OrderItemR :=
  { id := .vStr sid
    order_id := oid
    item_id :=
      let a := dgetD kv "itemId" .vNull
      if a.truthy then a else dgetD kv "id" (.vStr "")
    name := dgetD kv "name" (.vStr "Unknown")
    brand := dgetD kv "brand" .vNull
    unit := dgetD kv "unit" (.vStr "pieces")
    quantity := dgetD kv "quantity" (.vInt 1)
    current_stock := dgetD kv "currentStock" (.vInt 0)
    minimum_stock := dgetD kv "minimumStock" (.vInt 0)
    image_uri := dgetD kv "imageUri" .vNull
    supplier_name := dgetD kv "supplierName" .vNull
    purchase_link := dgetD kv "purchaseLink" .vNull }

/-- Insert the payload line items of an order, drawing a fresh primary
key for each row. -/
def addOrderItems (oid : Value) (rows : List Payload) (s : Store) : Store :=
  rows.foldl
    (fun st kv =>
      { st with
        orderItems := st.orderItems ++ [mkOrderItemRow oid kv (mkServerId st.nextId)]
        nextId := st.nextId + 1 })
    s

/-- The field writes of the order upsert branch other than `status`:
totals when present, each status timestamp when present and truthy, and
`updated_at`. -/
def orderApplyRest (d : Payload) (o : OrderR) : OrderR :=
  { o with
    total_items := if dmem d "totalItems" then dgetD d "totalItems" o.total_items else o.total_items
    total_units := if dmem d "totalUnits" then dgetD d "totalUnits" o.total_units else o.total_units
    ordered_at :=
      if dmem d "orderedAt" && (dgetD d "orderedAt" .vNull).truthy then
        parseDatetimeV (dgetD d "orderedAt" .vNull) else o.ordered_at
    received_at :=
      if dmem d "receivedAt" && (dgetD d "receivedAt" .vNull).truthy then
        parseDatetimeV (dgetD d "receivedAt" .vNull) else o.received_at
    applied_at :=
      if dmem d "appliedAt" && (dgetD d "appliedAt" .vNull).truthy then
        parseDatetimeV (dgetD d "appliedAt" .vNull) else o.applied_at
    declined_at :=
      if dmem d "declinedAt" && (dgetD d "declinedAt" .vNull).truthy then
        parseDatetimeV (dgetD d "declinedAt" .vNull) else o.declined_at
    updated_at := nowV }

/-- The field writes of the order upsert branch.  `status` comes first in
the source and its `OrderStatus(...)` constructor raises before anything
is written. -/
def orderApplyData (d : Payload) (o : OrderR) : Except String OrderR :=
  if dmem d "status" then
    match parseStatus (dgetD d "status" .vNull) with
    | none => .error "ValueError: not a valid OrderStatus"
    | some st => .ok (orderApplyRest d { o with status := st })
  else .ok (orderApplyRest d o)

/-- NOT NULL and UNIQUE checks `flush()` runs on a new `orders` row: the
order code is globally unique across all owners and non-null, and the
totals columns are non-null. -/
def orderFlushOk (o : OrderR) (s : Store) : Bool :=
  o.order_id != Value.vNull && o.total_items != Value.vNull && o.total_units != Value.vNull &&
    s.orders.all (fun x => !(x.order_id == o.order_id))

/-- `_sync_order`, CREATE branch (UPDATE delegates here): resolve an
existing order by client-local id or payload order code and update it in
place, replacing its line items wholesale when the payload carries any;
otherwise insert a new order, disambiguating a globally colliding order
code with the owner-id prefix and a fresh suffix. -/
def syncOrderCreate (uid : String) (op : SyncOperation) (s : Store) :
    SyncOperationResult × Store :=
  let codeFromData := match op.data with
    | some d => dget d "orderId"
    | none => none
  match scalarOneOrNone (orderMatchLocalOrCode uid op.local_id codeFromData) s.orders with
  | .error e => (exnResult op.id e, s)
  | .ok (some existing) =>
    match op.data with
    | none =>
      ({ operation_id := op.id, success := true, entity_id := some op.entity_id,
         server_id := some existing.id.pyStr }, s)
    | some d =>
      if dataTruthy op then
        match orderApplyData d existing with
        | .error e => (exnResult op.id e, s)
        | .ok existing' =>
          let s' := { s with
            orders := updateWhere (orderMatchLocalOrCode uid op.local_id codeFromData)
              (fun _ => existing') s.orders }
          let cleared := { s' with
            orderItems := s'.orderItems.filter (fun oi => !(oi.order_id == existing.id)) }
          let s'' := match op.itemsData with
            | some rows =>
              if rows.isEmpty then s' else addOrderItems existing.id rows cleared
            | none => s'
          ({ operation_id := op.id, success := true, entity_id := some op.entity_id,
             server_id := some existing.id.pyStr }, s'')
      else
        ({ operation_id := op.id, success := true, entity_id := some op.entity_id,
           server_id := some existing.id.pyStr }, s)
  | .ok none =>
    match op.data with
    | none => (exnResult op.id "AttributeError: NoneType has no attribute get", s)
    | some d =>
      let proposed := dgetD d "orderId" (.vStr ("ORD-" ++ op.local_id.take 8))
      match scalarOneOrNone (fun o => o.order_id == proposed) s.orders with
      | .error e => (exnResult op.id e, s)
      | .ok globalHit =>
        let (proposed', s₁) : Value × Store :=
          match globalHit with
          | some _ =>
            (.vStr (proposed.pyStr ++ "-" ++ uid.take 4 ++ "-" ++ mkSuffix s.nextId),
             { s with nextId := s.nextId + 1 })
          | none => (proposed, s)
        match parseStatus (dgetD d "status" (.vStr "pending")) with
        | none => (exnResult op.id "ValueError: not a valid OrderStatus", s₁)
        | some st =>
          let exported := parseDatetimeV (dgetD d "exportedAt" .vNull)
          let order : OrderR :=
            { id := .vStr (mkServerId s₁.nextId)
              user_id := .vStr uid
              order_id := proposed'
              total_items := dgetD d "totalItems" (.vInt 0)
              total_units := dgetD d "totalUnits" (.vInt 0)
              status := st
              exported_at := if exported.truthy then exported else nowV
              ordered_at := parseDatetimeV (dgetD d "orderedAt" .vNull)
              received_at := parseDatetimeV (dgetD d "receivedAt" .vNull)
              applied_at := parseDatetimeV (dgetD d "appliedAt" .vNull)
              declined_at := parseDatetimeV (dgetD d "declinedAt" .vNull)
              local_id := .vStr op.local_id
              created_at := nowV
              updated_at := nowV }
          if orderFlushOk order s₁ then
            let s₂ := { s₁ with orders := s₁.orders ++ [order], nextId := s₁.nextId + 1 }
            let s₃ := match op.itemsData with
              | some rows => if rows.isEmpty then s₂ else addOrderItems order.id rows s₂
              | none => s₂
            ({ operation_id := op.id, success := true, entity_id := some op.entity_id,
               server_id := some order.id.pyStr }, s₃)
          else
            (exnResult op.id "IntegrityError: orders constraint failed", s₁)

/-- `_sync_order` with dispatch: UPDATE delegates to the CREATE upsert;
DELETE removes the order and its line items explicitly and succeeds even
when no order matches. -/
def syncOrder (uid : String) (op : SyncOperation) (s : Store) :
    SyncOperationResult × Store :=
  match op.type with
  | .create => syncOrderCreate uid op s
  | .update => syncOrderCreate uid op s
  | .delete =>
    match scalarOneOrNone (orderMatchIdOrLocal uid op.entity_id op.local_id) s.orders with
    | .error e => (exnResult op.id e, s)
    | .ok none =>
      ({ operation_id := op.id, success := true, entity_id := some op.entity_id }, s)
    | .ok (some order) =>
      ({ operation_id := op.id, success := true, entity_id := some op.entity_id },
       { s with
         orders := s.orders.filter
           (fun o => !(orderMatchIdOrLocal uid op.entity_id op.local_id o))
         orderItems := s.orderItems.filter (fun oi => !(oi.order_id == order.id)) })

/-- `_process_sync_operation`: dispatch on the entity type. -/
def processOperation (uid : String) (op : SyncOperation) (s : Store) :
    SyncOperationResult × Store :=
  match op.entity with
  | .category => syncCategory uid op s
  | .item => syncItem uid op s
  | .order => syncOrder uid op s

/-- `get_operation_priority` from `sync_push`: categories first, then
items, then orders.  (The source's fallback priority 3 is unreachable:
the entity enum has exactly these three values.) -/
def getOperationPriority (op : SyncOperation) : Nat :=
  match op.entity with
  | .category => 0
  | .item => 1
  | .order => 2

/-- Stable insertion step: the new operation goes after every already
placed operation of equal or lower priority. -/
def insertOp (x : SyncOperation) : List SyncOperation → List SyncOperation
  | [] => [x]
  | y :: ys =>
    if getOperationPriority x < getOperationPriority y then x :: y :: ys
    else y :: insertOp x ys

/-- `sorted(data.operations, key=get_operation_priority)`: Python's
stable sort, embedded as stable insertion sort. -/
def sortOperations (l : List SyncOperation) : List SyncOperation :=
  l.foldl (fun acc x => insertOp x acc) []

/-- The processing loop of `sync_push`: each sorted operation produces
exactly one result (a raised exception is caught and recorded as a
failed result) and threads the store. -/
def processOps (uid : String) : List SyncOperation → Store → List SyncOperationResult × Store
  | [], s => ([], s)
  | op :: rest, s =>
    let (r, s') := processOperation uid op s
    let (rs, s'') := processOps uid rest s'
    (r :: rs, s'')

/-- The client-local ids collected for orphan cleanup: every non-DELETE
operation of the given entity type contributes its `local_id`. -/
def pushedLocalIds (ops : List SyncOperation) (et : SyncEntityType) : List String :=
  (ops.filter (fun op => op.entity == et && op.type != SyncOperationType.delete)).map
    (fun op => op.local_id)

/-- `Item.local_id.notin_(ids)` under SQL three-valued logic: a NULL
`local_id` never satisfies NOT IN. -/
def notInIds (v : Value) (ids : List String) : Bool :=
  match v with
  | .vStr l => !ids.contains l
  | _ => false

/-- Whether an operation took an insert path: exactly the insert branches
append a row to `categories`, `items` or `orders` (the upsert and delete
branches never do), and each of them calls `flush()` right after
`add(...)`. -/
def insertHappened (s s' : Store) : Bool :=
  s.categories.length < s'.categories.length ||
    s.items.length < s'.items.length ||
    s.orders.length < s'.orders.length

/-- The rows visible to the database while `sync_push` runs.  The session
is created with `autoflush=False` (`database.py`), so every query sees the
state as of the most recent `flush()`; the only flushes during processing
are the ones on the three insert paths, and each of them pushes all
pending session changes to the database at once.  The image is read only
by the cleanup queries, which never touch line items. -/
def dbImage (uid : String) : List SyncOperation → Store → Store → Store
  | [], _, db => db
  | op :: rest, s, db =>
    let s' := (processOperation uid op s).2
    dbImage uid rest s' (if insertHappened s s' then s' else db)

/-- The items the item-cleanup loop marks for deletion (`db.delete`),
identified by primary key: the orphan query runs against the database
image, so it matches rows by their values as of the last flush.  Skipped
(no deletions) when no item local id was pushed. -/
def itemOrphanIds (uid : String) (itemIds : List String) (db : Store) : List Value :=
  if itemIds.isEmpty then []
  else (db.items.filter
    (fun i => i.user_id == Value.vStr uid && notInIds i.local_id itemIds)).map
      (fun i => i.id)

/-- The categories the category-cleanup loop marks for deletion: the
orphan query and the referential check (`select(Item).where(Item
.category_id == cat.id)`) both run against the database image — item
rows the same cleanup just marked for deletion are still present there
and protect their category, while unflushed category-link updates are
invisible.  Skipped when no category local id was pushed. -/
def catOrphanIds (uid : String) (catIds : List String) (db : Store) : List Value :=
  if catIds.isEmpty then []
  else (db.categories.filter
    (fun c => c.user_id == Value.vStr uid && notInIds c.local_id catIds &&
      db.items.all (fun i => !(i.category_id == c.id)))).map
    (fun c => c.id)

/-- The orders the order-cleanup loop marks for deletion.  Skipped when
no order local id was pushed. -/
def orderOrphanIds (uid : String) (orderIds : List String) (db : Store) : List Value :=
  if orderIds.isEmpty then []
  else (db.orders.filter
    (fun o => o.user_id == Value.vStr uid && notInIds o.local_id orderIds)).map
      (fun o => o.id)

/-- The orphan-cleanup phase of `sync_push`, gated on a non-empty batch.
With `autoflush=False` and no flush inside the cleanup, all three orphan
queries and the category referential check read the database image `db`
(the state as of the last flush); `db.delete` marks the matched row's
primary key for deletion, so the session rows removed are the ones whose
id was matched in the image.  At commit the foreign keys cascade
(`ondelete=CASCADE`): items whose (session) category link points at a
deleted category and line items of a deleted order are removed with
it. -/
def orphanCleanup (uid : String) (catIds itemIds orderIds : List String) (nOps : Nat)
    (db s : Store) : Store :=
  if nOps ≥ 1 then
    { s with
      categories := s.categories.filter
        (fun c => !((catOrphanIds uid catIds db).contains c.id))
      items := s.items.filter
        (fun i => !((itemOrphanIds uid itemIds db).contains i.id) &&
          !((catOrphanIds uid catIds db).contains i.category_id))
      orders := s.orders.filter (fun o => !((orderOrphanIds uid orderIds db).contains o.id))
      orderItems := s.orderItems.filter
        (fun oi => !((orderOrphanIds uid orderIds db).contains oi.order_id)) }
  else s

/-- The `sync_push` route: sort, process each operation, then orphan
cleanup against the database image the flushes left behind; the response
carries one result per operation and the success/error counts the loop
accumulates. -/
def syncPush (uid : String) (ops : List SyncOperation) (s : Store) :
    List SyncOperationResult × Store :=
  let sorted := sortOperations ops
  let (results, s₁) := processOps uid sorted s
  let s₂ := orphanCleanup uid (pushedLocalIds sorted .category) (pushedLocalIds sorted .item)
    (pushedLocalIds sorted .order) ops.length (dbImage uid sorted s s) s₁
  (results, s₂)

/-- `successCount` of the push response (the loop adds one per
successful result). -/
def successCount (results : List SyncOperationResult) : Nat :=
  results.countP (fun r => r.success)

/-- `errorCount` of the push response (the loop adds one per failed
result, including caught exceptions). -/
def errorCount (results : List SyncOperationResult) : Nat :=
  results.countP (fun r => !r.success)

/-- The `orders` lookup of `apply_order_to_stock`
(`Order.id == order_id or Order.order_id == order_id`, scoped to the
owner). -/
def applyMatch (uid ref : String) (o : OrderR) : Bool :=
  o.user_id == Value.vStr uid && (o.id == Value.vStr ref || o.order_id == Value.vStr ref)

/-- One step of the stock-update loop:
`item.quantity += order_item.quantity` on the looked-up live item, a
raise when either side is not an integer. -/
def applyOneLine (uid : String) (oi : OrderItemR) (hit : ItemR) (items : List ItemR) :
    Except String (List ItemR) :=
  match hit.quantity, oi.quantity with
  | .vInt a, .vInt b =>
    .ok (updateWhere (fun i => i.id == oi.item_id && i.user_id == Value.vStr uid)
      (fun i => { i with quantity := .vInt (a + b) }) items)
  | _, _ => .error "TypeError: unsupported operand types"

/-- The stock-update loop of `apply_order_to_stock`: for each line item
in turn, find the owner's live item by denormalized id and add the
ordered quantity; a line whose item is gone is skipped. -/
def applyLines (uid : String) : List OrderItemR → List ItemR → Except String (List ItemR)
  | [], items => .ok items
  | oi :: rest, items =>
    match scalarOneOrNone (fun i => i.id == oi.item_id && i.user_id == Value.vStr uid) items with
    | .error e => .error e
    | .ok none => applyLines uid rest items
    | .ok (some hit) =>
      match applyOneLine uid oi hit items with
      | .error e => .error e
      | .ok items₁ => applyLines uid rest items₁

/-- `apply_order_to_stock` (`app/api/v1/orders.py`): only an order in
`received` status may be applied; on success each line item's quantity
is added to the matching live item and the order moves to
`stock_updated` with `applied_at` stamped.  Errors (HTTP 404/400 or a
raised exception) roll the transaction back, so no store is produced. -/
def applyOrderToStock (uid ref : String) (s : Store) : Except String Store :=
  match scalarOneOrNone (applyMatch uid ref) s.orders with
  | .error e => .error e
  | .ok none => .error "404: Order not found"
  | .ok (some order) =>
    if order.status != OrderStatus.received then
      .error "400: Order must be in received status to apply to stock"
    else
      match applyLines uid (s.orderItems.filter (fun oi => oi.order_id == order.id)) s.items with
      | .error e => .error e
      | .ok items' =>
        .ok { s with
          items := items'
          orders := updateWhere (applyMatch uid ref)
            (fun o => { o with status := .stock_updated, applied_at := nowV })
            s.orders }

/-! ## The Operation Sequencer -/

/-- Inserting above every element of equal or lower priority appends. -/
lemma insertOp_ge (x : SyncOperation) (b : List SyncOperation)
    (hb : ∀ y ∈ b, getOperationPriority y ≤ getOperationPriority x) :
    insertOp x b = b ++ [x] := by
  induction b with
  | nil => rfl
  | cons y ys ih =>
    have hy := hb y (by simp)
    simp only [insertOp, if_neg (Nat.not_lt.mpr hy)]
    rw [ih (fun z hz => hb z (by simp [hz]))]
    simp

/-- Inserting below every element prepends. -/
lemma insertOp_lt (x : SyncOperation) (b : List SyncOperation)
    (hb : ∀ y ∈ b, getOperationPriority x < getOperationPriority y) :
    insertOp x b = x :: b := by
  cases b with
  | nil => rfl
  | cons y ys => simp only [insertOp, if_pos (hb y (by simp))]

/-- Inserting into a block of equal-or-lower priorities followed by a
block of strictly higher priorities lands exactly between them. -/
lemma insertOp_between (x : SyncOperation) (b c : List SyncOperation)
    (hb : ∀ y ∈ b, getOperationPriority y ≤ getOperationPriority x)
    (hc : ∀ y ∈ c, getOperationPriority x < getOperationPriority y) :
    insertOp x (b ++ c) = b ++ x :: c := by
  induction b with
  | nil => simpa using insertOp_lt x c hc
  | cons y ys ih =>
    have hy := hb y (by simp)
    simp only [List.cons_append, insertOp, if_neg (Nat.not_lt.mpr hy), List.append_eq]
    rw [ih (fun z hz => hb z (by simp [hz]))]

/-- Priority-0 predicate (category operations). -/
def prioIs (n : Nat) (op : SyncOperation) : Bool :=
  getOperationPriority op == n

/-- The invariant of the insertion-sort fold: starting from three
priority-homogeneous blocks, the fold appends each operation to the
block of its priority, preserving relative order. -/
lemma foldl_insertOp_blocks (l : List SyncOperation) :
    ∀ b0 b1 b2 : List SyncOperation,
    (∀ y ∈ b0, getOperationPriority y = 0) →
    (∀ y ∈ b1, getOperationPriority y = 1) →
    (∀ y ∈ b2, getOperationPriority y = 2) →
    l.foldl (fun acc x => insertOp x acc) (b0 ++ b1 ++ b2) =
      (b0 ++ l.filter (prioIs 0)) ++ (b1 ++ l.filter (prioIs 1)) ++
        (b2 ++ l.filter (prioIs 2)) := by
  induction l with
  | nil => intro b0 b1 b2 _ _ _; simp
  | cons x xs ih =>
    intro b0 b1 b2 h0 h1 h2
    simp only [List.foldl_cons]
    cases hx : x.entity with
    | category =>
      have hpx : getOperationPriority x = 0 := by simp [getOperationPriority, hx]
      have : insertOp x (b0 ++ b1 ++ b2) = (b0 ++ [x]) ++ b1 ++ b2 := by
        have := insertOp_between x b0 (b1 ++ b2)
          (fun y hy => by rw [h0 y hy, hpx])
          (fun y hy => by
            rcases List.mem_append.mp hy with h | h
            · rw [h1 y h, hpx]; omega
            · rw [h2 y h, hpx]; omega)
        simpa [List.append_assoc] using this
      rw [this, ih (b0 ++ [x]) b1 b2
        (fun y hy => by
          rcases List.mem_append.mp hy with h | h
          · exact h0 y h
          · simp at h; subst h; exact hpx)
        h1 h2]
      simp [List.filter_cons, prioIs, hpx, List.append_assoc]
    | item =>
      have hpx : getOperationPriority x = 1 := by simp [getOperationPriority, hx]
      have : insertOp x (b0 ++ b1 ++ b2) = b0 ++ (b1 ++ [x]) ++ b2 := by
        have := insertOp_between x (b0 ++ b1) b2
          (fun y hy => by
            rcases List.mem_append.mp hy with h | h
            · rw [h0 y h, hpx]; omega
            · rw [h1 y h, hpx])
          (fun y hy => by rw [h2 y hy, hpx]; omega)
        simpa [List.append_assoc] using this
      rw [this, ih b0 (b1 ++ [x]) b2 h0
        (fun y hy => by
          rcases List.mem_append.mp hy with h | h
          · exact h1 y h
          · simp at h; subst h; exact hpx)
        h2]
      simp [List.filter_cons, prioIs, hpx, List.append_assoc]
    | order =>
      have hpx : getOperationPriority x = 2 := by simp [getOperationPriority, hx]
      have : insertOp x (b0 ++ b1 ++ b2) = b0 ++ b1 ++ (b2 ++ [x]) := by
        have := insertOp_ge x (b0 ++ b1 ++ b2)
          (fun y hy => by
            rcases List.mem_append.mp hy with h | h
            · rcases List.mem_append.mp h with h' | h'
              · rw [h0 y h', hpx]; omega
              · rw [h1 y h', hpx]; omega
            · rw [h2 y h, hpx])
        simpa [List.append_assoc] using this
      rw [this, ih b0 b1 (b2 ++ [x]) h0 h1
        (fun y hy => by
          rcases List.mem_append.mp hy with h | h
          · exact h2 y h
          · simp at h; subst h; exact hpx)]
      simp [List.filter_cons, prioIs, hpx, List.append_assoc]

/-- The stable sort, characterized: the category block, then the item
block, then the order block, each in original submission order. -/
lemma sortOperations_eq_blocks (l : List SyncOperation) :
    sortOperations l =
      l.filter (prioIs 0) ++ l.filter (prioIs 1) ++ l.filter (prioIs 2) := by
  have := foldl_insertOp_blocks l [] [] []
    (by intro y hy; cases hy) (by intro y hy; cases hy) (by intro y hy; cases hy)
  simpa [sortOperations, List.append_assoc] using this

/-- The priority predicates coincide with entity-type tests. -/
lemma prioIs_entity (op : SyncOperation) :
    (prioIs 0 op = (op.entity == .category)) ∧
      (prioIs 1 op = (op.entity == .item)) ∧ (prioIs 2 op = (op.entity == .order)) := by
  cases h : op.entity <;> simp [prioIs, getOperationPriority, h]

/-- Membership is preserved by the sequencer. -/
lemma mem_sortOperations {op : SyncOperation} {l : List SyncOperation} :
    op ∈ sortOperations l ↔ op ∈ l := by
  rw [sortOperations_eq_blocks]
  constructor
  · intro h
    rcases List.mem_append.mp h with h' | h'
    · rcases List.mem_append.mp h' with h'' | h''
      · exact (List.mem_filter.mp h'').1
      · exact (List.mem_filter.mp h'').1
    · exact (List.mem_filter.mp h').1
  · intro h
    cases hx : op.entity with
    | category =>
      exact List.mem_append.mpr (.inl (List.mem_append.mpr (.inl
        (List.mem_filter.mpr ⟨h, by simp [prioIs, getOperationPriority, hx]⟩))))
    | item =>
      exact List.mem_append.mpr (.inl (List.mem_append.mpr (.inr
        (List.mem_filter.mpr ⟨h, by simp [prioIs, getOperationPriority, hx]⟩))))
    | order =>
      exact List.mem_append.mpr (.inr
        (List.mem_filter.mpr ⟨h, by simp [prioIs, getOperationPriority, hx]⟩))

/-- The sequencer neither drops nor duplicates operations. -/
lemma sortOperations_length (l : List SyncOperation) :
    (sortOperations l).length = l.length := by
  rw [sortOperations_eq_blocks]
  simp only [List.length_append]
  induction l with
  | nil => rfl
  | cons x xs ih =>
    cases hx : x.entity <;>
      simp [List.filter_cons, prioIs, getOperationPriority, hx] <;> omega

/-- C4.  For every push batch, operations are applied in the order of a
stable sort on entity-type priority: the batch's category operations
first, then its item operations, then its order operations, each block
keeping the original relative submission order, and `sync_push` feeds the
handlers exactly this sorted sequence. -/
theorem push_sequencing (ops : List SyncOperation) :
    sortOperations ops =
      ops.filter (fun o => o.entity == SyncEntityType.category) ++
        ops.filter (fun o => o.entity == SyncEntityType.item) ++
        ops.filter (fun o => o.entity == SyncEntityType.order) := by
  rw [sortOperations_eq_blocks]
  congr 1
  · congr 1
    · exact List.filter_congr (fun op _ => (prioIs_entity op).1
      )
    · exact List.filter_congr (fun op _ => (prioIs_entity op).2.1)
  · exact List.filter_congr (fun op _ => (prioIs_entity op).2.2)

/-! ## The push loop: one result per operation -/

/-- Every branch of the category CREATE handler labels its result with
the operation's id. -/
lemma syncCategoryCreate_opId (uid : String) (op : SyncOperation) (s : Store) :
    ((syncCategoryCreate uid op s).1).operation_id = op.id := by
  unfold syncCategoryCreate
  repeat' split
  all_goals try rfl
  all_goals simp only []
  repeat' split
  all_goals rfl

/-- Every branch of the category handler labels its result with the
operation's id. -/
lemma syncCategory_opId (uid : String) (op : SyncOperation) (s : Store) :
    ((syncCategory uid op s).1).operation_id = op.id := by
  unfold syncCategory
  repeat' split
  all_goals try rfl
  all_goals apply syncCategoryCreate_opId

/-- Every branch of the item CREATE handler labels its result with the
operation's id. -/
lemma syncItemCreate_opId (uid : String) (op : SyncOperation) (s : Store) :
    ((syncItemCreate uid op s).1).operation_id = op.id := by
  unfold syncItemCreate
  repeat' split
  all_goals try rfl
  all_goals simp only []
  repeat' split
  all_goals rfl

/-- Every branch of the item handler labels its result with the
operation's id. -/
lemma syncItem_opId (uid : String) (op : SyncOperation) (s : Store) :
    ((syncItem uid op s).1).operation_id = op.id := by
  unfold syncItem
  repeat' split
  all_goals try rfl
  all_goals apply syncItemCreate_opId

/-- Every branch of the order CREATE handler labels its result with the
operation's id. -/
lemma syncOrderCreate_opId (uid : String) (op : SyncOperation) (s : Store) :
    ((syncOrderCreate uid op s).1).operation_id = op.id := by
  unfold syncOrderCreate
  repeat' split
  all_goals simp only []
  repeat' split
  all_goals rfl

/-- Every branch of the order handler labels its result with the
operation's id. -/
lemma syncOrder_opId (uid : String) (op : SyncOperation) (s : Store) :
    ((syncOrder uid op s).1).operation_id = op.id := by
  unfold syncOrder
  repeat' split
  all_goals try rfl
  all_goals apply syncOrderCreate_opId

/-- Every operation yields exactly one result, labelled with its id. -/
lemma processOperation_opId (uid : String) (op : SyncOperation) (s : Store) :
    ((processOperation uid op s).1).operation_id = op.id := by
  unfold processOperation
  split
  · apply syncCategory_opId
  · apply syncItem_opId
  · apply syncOrder_opId

/-- The loop emits the operations' ids in processing order: a failed
operation still contributes its result and the loop continues. -/
lemma processOps_opIds (uid : String) (l : List SyncOperation) (s : Store) :
    ((processOps uid l s).1).map (fun r => r.operation_id) = l.map (fun op => op.id) := by
  induction l generalizing s with
  | nil => rfl
  | cons op rest ih =>
    simp only [processOps, List.map_cons]
    rw [processOperation_opId, ih]

/-- The loop emits one result per operation. -/
lemma processOps_length (uid : String) (l : List SyncOperation) (s : Store) :
    ((processOps uid l s).1).length = l.length := by
  have := processOps_opIds uid l s
  calc ((processOps uid l s).1).length
      = (((processOps uid l s).1).map (fun r => r.operation_id)).length := by
        rw [List.length_map]
    _ = l.length := by rw [this, List.length_map]

/-- Counting a predicate and its negation partitions a list. -/
lemma countP_partition {α : Type} (p : α → Bool) (l : List α) :
    l.countP p + l.countP (fun a => !p a) = l.length := by
  induction l with
  | nil => rfl
  | cons x xs ih =>
    by_cases hx : p x
    · simp [List.countP_cons, hx]; omega
    · simp [List.countP_cons, hx]; omega

/-- C9.  Every push response carries exactly one result per submitted
operation (a failed operation is recorded and does not stop the loop
from processing and reporting the remaining operations, as the
result-id sequence equals the full sorted operation-id sequence), and
`successCount + errorCount` equals the number of submitted operations. -/
theorem push_one_result_per_operation (uid : String) (ops : List SyncOperation) (s : Store) :
    ((syncPush uid ops s).1).length = ops.length ∧
      ((syncPush uid ops s).1).map (fun r => r.operation_id) =
        (sortOperations ops).map (fun op => op.id) ∧
      successCount ((syncPush uid ops s).1) + errorCount ((syncPush uid ops s).1) =
        ops.length := by
  have hres : (syncPush uid ops s).1 = (processOps uid (sortOperations ops) s).1 := rfl
  refine ⟨?_, ?_, ?_⟩
  · rw [hres, processOps_length, sortOperations_length]
  · rw [hres, processOps_opIds]
  · rw [hres]
    unfold successCount errorCount
    rw [countP_partition, processOps_length, sortOperations_length]

/-! ## Orphan cleanup -/

/-- SQL `NOT IN` semantics, propositionally: a row passes exactly when
its client-local id is a string outside the pushed set. -/
lemma notInIds_iff (v : Value) (ids : List String) :
    notInIds v ids = true ↔ ∃ l, v = .vStr l ∧ l ∉ ids := by
  cases v <;> simp [notInIds]

/-- Membership in one of the cleanup's deletion-id lists: a projected
filter of the database image. -/
lemma orphan_ids_mem {α : Type} (f : α → Value) (p : α → Bool) (l : List α) (v : Value) :
    v ∈ (l.filter p).map f ↔ ∃ r ∈ l, p r = true ∧ f r = v := by
  simp [List.mem_filter]
  tauto

/-- `itemOrphanIds` membership, spelled out: the image rows the item
orphan query matches (owned, string local id outside the pushed set). -/
lemma itemOrphanIds_iff (uid : String) (itemIds : List String) (db : Store) (v : Value) :
    v ∈ itemOrphanIds uid itemIds db ↔
      itemIds ≠ [] ∧ ∃ r ∈ db.items, r.user_id = .vStr uid ∧
        (∃ l, r.local_id = .vStr l ∧ l ∉ itemIds) ∧ r.id = v := by
  unfold itemOrphanIds
  by_cases he : itemIds.isEmpty
  · rw [if_pos he]
    simp [List.isEmpty_iff.mp he]
  · rw [if_neg he, orphan_ids_mem]
    have hne : itemIds ≠ [] := fun h => he (by simp [h])
    simp [hne, notInIds_iff, and_assoc]

/-- `orderOrphanIds` membership, spelled out. -/
lemma orderOrphanIds_iff (uid : String) (orderIds : List String) (db : Store) (v : Value) :
    v ∈ orderOrphanIds uid orderIds db ↔
      orderIds ≠ [] ∧ ∃ r ∈ db.orders, r.user_id = .vStr uid ∧
        (∃ l, r.local_id = .vStr l ∧ l ∉ orderIds) ∧ r.id = v := by
  unfold orderOrphanIds
  by_cases he : orderIds.isEmpty
  · rw [if_pos he]
    simp [List.isEmpty_iff.mp he]
  · rw [if_neg he, orphan_ids_mem]
    have hne : orderIds ≠ [] := fun h => he (by simp [h])
    simp [hne, notInIds_iff, and_assoc]

/-- `catOrphanIds` membership, spelled out: owned, unpushed, and no item
row of the database image references the category. -/
lemma catOrphanIds_iff (uid : String) (catIds : List String) (db : Store) (v : Value) :
    v ∈ catOrphanIds uid catIds db ↔
      catIds ≠ [] ∧ ∃ r ∈ db.categories, r.user_id = .vStr uid ∧
        (∃ l, r.local_id = .vStr l ∧ l ∉ catIds) ∧
        (∀ i ∈ db.items, i.category_id ≠ r.id) ∧ r.id = v := by
  unfold catOrphanIds
  by_cases he : catIds.isEmpty
  · rw [if_pos he]
    simp [List.isEmpty_iff.mp he]
  · rw [if_neg he, orphan_ids_mem]
    have hne : catIds ≠ [] := fun h => he (by simp [h])
    simp [hne, notInIds_iff, and_assoc, List.all_eq_true]

/-- The three tables of a cleanup on a non-empty batch: each is the
session table filtered by the deletion-id sets the image yields (items
are also removed by the commit-time cascade of a deleted category). -/
lemma cleanup_mem (uid : String) (catIds itemIds orderIds : List String) (nOps : Nat)
    (db s : Store) (hn : nOps ≥ 1) :
    (∀ i : ItemR, i ∈ (orphanCleanup uid catIds itemIds orderIds nOps db s).items ↔
      i ∈ s.items ∧ i.id ∉ itemOrphanIds uid itemIds db ∧
        i.category_id ∉ catOrphanIds uid catIds db) ∧
    (∀ c : CategoryR, c ∈ (orphanCleanup uid catIds itemIds orderIds nOps db s).categories ↔
      c ∈ s.categories ∧ c.id ∉ catOrphanIds uid catIds db) ∧
    (∀ o : OrderR, o ∈ (orphanCleanup uid catIds itemIds orderIds nOps db s).orders ↔
      o ∈ s.orders ∧ o.id ∉ orderOrphanIds uid orderIds db) := by
  have hitems : (orphanCleanup uid catIds itemIds orderIds nOps db s).items =
      s.items.filter
        (fun i => !((itemOrphanIds uid itemIds db).contains i.id) &&
          !((catOrphanIds uid catIds db).contains i.category_id)) := by
    unfold orphanCleanup
    rw [if_pos hn]
  have hcats : (orphanCleanup uid catIds itemIds orderIds nOps db s).categories =
      s.categories.filter (fun c => !((catOrphanIds uid catIds db).contains c.id)) := by
    unfold orphanCleanup
    rw [if_pos hn]
  have horders : (orphanCleanup uid catIds itemIds orderIds nOps db s).orders =
      s.orders.filter (fun o => !((orderOrphanIds uid orderIds db).contains o.id)) := by
    unfold orphanCleanup
    rw [if_pos hn]
  refine ⟨?_, ?_, ?_⟩
  · intro i
    rw [hitems]
    simp [List.mem_filter]
  · intro c
    rw [hcats]
    simp [List.mem_filter]
  · intro o
    rw [horders]
    simp [List.mem_filter]

/-- C2 (amended).  For every push batch, orphan cleanup removes, per
entity type independently, exactly the session rows whose primary key
the orphan queries matched — and those queries, as well as the category
referential-safety check, run against the database image as of the last
flush, not the session: a row is marked when its image row is owned by
the current user and its image-row client-local id is a string outside
the pushed set of its type, a category additionally only when no item
row of the image references it (so items the same cleanup just marked
still protect their category, and unflushed category-link updates do not
register), items whose session category link points at a deleted
category are removed with it by the commit cascade, each type's cleanup
is skipped entirely when its pushed set is empty — in particular a batch
containing only item operations deletes no category and no order. -/
theorem orphan_cleanup_exact (uid : String) (ops : List SyncOperation) (s : Store) :
    (∀ i : ItemR, i ∈ ((syncPush uid ops s).2).items ↔
      i ∈ ((processOps uid (sortOperations ops) s).2).items ∧
        i.id ∉ itemOrphanIds uid (pushedLocalIds (sortOperations ops) .item)
          (dbImage uid (sortOperations ops) s s) ∧
        i.category_id ∉ catOrphanIds uid (pushedLocalIds (sortOperations ops) .category)
          (dbImage uid (sortOperations ops) s s)) ∧
    (∀ c : CategoryR, c ∈ ((syncPush uid ops s).2).categories ↔
      c ∈ ((processOps uid (sortOperations ops) s).2).categories ∧
        c.id ∉ catOrphanIds uid (pushedLocalIds (sortOperations ops) .category)
          (dbImage uid (sortOperations ops) s s)) ∧
    (∀ o : OrderR, o ∈ ((syncPush uid ops s).2).orders ↔
      o ∈ ((processOps uid (sortOperations ops) s).2).orders ∧
        o.id ∉ orderOrphanIds uid (pushedLocalIds (sortOperations ops) .order)
          (dbImage uid (sortOperations ops) s s)) ∧
    (∀ v : Value, v ∈ itemOrphanIds uid (pushedLocalIds (sortOperations ops) .item)
        (dbImage uid (sortOperations ops) s s) ↔
      pushedLocalIds (sortOperations ops) .item ≠ [] ∧
        ∃ r ∈ (dbImage uid (sortOperations ops) s s).items, r.user_id = .vStr uid ∧
          (∃ l, r.local_id = .vStr l ∧ l ∉ pushedLocalIds (sortOperations ops) .item) ∧
          r.id = v) ∧
    (∀ v : Value, v ∈ catOrphanIds uid (pushedLocalIds (sortOperations ops) .category)
        (dbImage uid (sortOperations ops) s s) ↔
      pushedLocalIds (sortOperations ops) .category ≠ [] ∧
        ∃ r ∈ (dbImage uid (sortOperations ops) s s).categories, r.user_id = .vStr uid ∧
          (∃ l, r.local_id = .vStr l ∧ l ∉ pushedLocalIds (sortOperations ops) .category) ∧
          (∀ i ∈ (dbImage uid (sortOperations ops) s s).items, i.category_id ≠ r.id) ∧
          r.id = v) ∧
    (∀ v : Value, v ∈ orderOrphanIds uid (pushedLocalIds (sortOperations ops) .order)
        (dbImage uid (sortOperations ops) s s) ↔
      pushedLocalIds (sortOperations ops) .order ≠ [] ∧
        ∃ r ∈ (dbImage uid (sortOperations ops) s s).orders, r.user_id = .vStr uid ∧
          (∃ l, r.local_id = .vStr l ∧ l ∉ pushedLocalIds (sortOperations ops) .order) ∧
          r.id = v) ∧
    ((∀ op ∈ ops, op.entity = SyncEntityType.item) →
      ((syncPush uid ops s).2).categories =
          ((processOps uid (sortOperations ops) s).2).categories ∧
        ((syncPush uid ops s).2).orders =
          ((processOps uid (sortOperations ops) s).2).orders) := by
  classical
  by_cases hnil : ops = []
  case pos =>
    subst hnil
    have hpush : (syncPush uid ([] : List SyncOperation) s).2 =
        (processOps uid (sortOperations []) s).2 := rfl
    have hiempty : itemOrphanIds uid (pushedLocalIds (sortOperations []) .item)
        (dbImage uid (sortOperations []) s s) = [] := rfl
    have hcempty : catOrphanIds uid (pushedLocalIds (sortOperations []) .category)
        (dbImage uid (sortOperations []) s s) = [] := rfl
    have hoempty : orderOrphanIds uid (pushedLocalIds (sortOperations []) .order)
        (dbImage uid (sortOperations []) s s) = [] := rfl
    refine ⟨?_, ?_, ?_, fun v => itemOrphanIds_iff uid _ _ v,
      fun v => catOrphanIds_iff uid _ _ v, fun v => orderOrphanIds_iff uid _ _ v, ?_⟩
    · intro i
      rw [hpush, hiempty, hcempty]
      simp
    · intro c
      rw [hpush, hcempty]
      simp
    · intro o
      rw [hpush, hoempty]
      simp
    · intro hallitem
      exact ⟨by rw [hpush], by rw [hpush]⟩
  case neg =>
    have hn : ops.length ≥ 1 := by
      cases ops with
      | nil => exact absurd rfl hnil
      | cons a l => simp
    have hpush : (syncPush uid ops s).2 =
        orphanCleanup uid (pushedLocalIds (sortOperations ops) .category)
          (pushedLocalIds (sortOperations ops) .item)
          (pushedLocalIds (sortOperations ops) .order) ops.length
          (dbImage uid (sortOperations ops) s s)
          ((processOps uid (sortOperations ops) s).2) := rfl
    have h3 := cleanup_mem uid (pushedLocalIds (sortOperations ops) .category)
      (pushedLocalIds (sortOperations ops) .item)
      (pushedLocalIds (sortOperations ops) .order) ops.length
      (dbImage uid (sortOperations ops) s s)
      ((processOps uid (sortOperations ops) s).2) hn
    refine ⟨?_, ?_, ?_, fun v => itemOrphanIds_iff uid _ _ v,
      fun v => catOrphanIds_iff uid _ _ v, fun v => orderOrphanIds_iff uid _ _ v, ?_⟩
    · intro i
      rw [hpush]
      exact h3.1 i
    · intro c
      rw [hpush]
      exact h3.2.1 c
    · intro o
      rw [hpush]
      exact h3.2.2 o
    · intro hallitem
      have hfilter : ∀ et : SyncEntityType, et ≠ SyncEntityType.item →
          (sortOperations ops).filter
            (fun op => op.entity == et && op.type != SyncOperationType.delete) = [] := by
        intro et het
        rw [List.filter_eq_nil_iff]
        intro a ha
        have := hallitem a (mem_sortOperations.mp ha)
        simp [this, Ne.symm het]
      have hcatnil : pushedLocalIds (sortOperations ops) .category = [] := by
        unfold pushedLocalIds
        rw [hfilter SyncEntityType.category (by simp)]
        rfl
      have hordernil : pushedLocalIds (sortOperations ops) .order = [] := by
        unfold pushedLocalIds
        rw [hfilter SyncEntityType.order (by simp)]
        rfl
      have hcats : ((syncPush uid ops s).2).categories =
          ((processOps uid (sortOperations ops) s).2).categories.filter
            (fun c => !((catOrphanIds uid (pushedLocalIds (sortOperations ops) .category)
              (dbImage uid (sortOperations ops) s s)).contains c.id)) := by
        rw [hpush]
        unfold orphanCleanup
        rw [if_pos hn]
      have horders : ((syncPush uid ops s).2).orders =
          ((processOps uid (sortOperations ops) s).2).orders.filter
            (fun o => !((orderOrphanIds uid (pushedLocalIds (sortOperations ops) .order)
              (dbImage uid (sortOperations ops) s s)).contains o.id)) := by
        rw [hpush]
        unfold orphanCleanup
        rw [if_pos hn]
      constructor
      · rw [hcats, hcatnil]
        have hnil2 : catOrphanIds uid ([] : List String)
            (dbImage uid (sortOperations ops) s s) = [] := rfl
        rw [hnil2]
        simp
      · rw [horders, hordernil]
        have hnil2 : orderOrphanIds uid ([] : List String)
            (dbImage uid (sortOperations ops) s s) = [] := rfl
        rw [hnil2]
        simp

/-- Counterexample fixtures: a stored category (`c0`) with one stored
item (`i1`) referencing it, and a batch that pushes a fresh category and
a fresh item — both inserts, so both flushed. -/
def c2xCat : CategoryR :=
  { id := .vStr "00000000-0000-0000-0000-0000000000aa", user_id := .vStr "u1",
    name := .vStr "Meds", description := .vNull, display_order := .vInt 0,
    is_default := .vBool false, local_id := .vStr "c0",
    created_at := nowV, updated_at := nowV }

def c2xItem : ItemR :=
  { id := .vStr "00000000-0000-0000-0000-0000000000ab", user_id := .vStr "u1",
    category_id := .vStr "00000000-0000-0000-0000-0000000000aa",
    name := .vStr "Aspirin", description := .vNull, quantity := .vInt 10,
    unit := .vStr "pieces", minimum_stock := .vInt 5, expiry_date := .vNull,
    brand := .vNull, notes := .vNull, supplier_name := .vNull,
    supplier_contact := .vNull, purchase_link := .vNull, image_uri := .vNull,
    is_active := .vBool true, is_critical := .vBool false, local_id := .vStr "i1",
    created_at := nowV, updated_at := nowV }

def c2xStore : Store := ⟨[c2xCat], [c2xItem], [], [], 5⟩

def c2xOps : List SyncOperation :=
  [{ id := "opA", type := .create, entity := .category, entity_id := "", local_id := "c9",
     data := some [("name", .vStr "New")], itemsData := none },
   { id := "opB", type := .create, entity := .item, entity_id := "", local_id := "i9",
     data := some [("name", .vStr "Thing"), ("categoryId", .vStr "c9")], itemsData := none }]

/-- After this push the stored category `c0` survives cleanup although
its local id was not pushed (the pushed category set being non-empty)
and no surviving item references it: the referential check ran against
the database image, where the item row the same cleanup had just marked
for deletion still existed and protected it. -/
theorem orphan_cleanup_exact_counterexample :
    c2xCat ∈ ((syncPush "u1" c2xOps c2xStore).2).categories ∧
      (∀ i ∈ ((syncPush "u1" c2xOps c2xStore).2).items, i.category_id ≠ c2xCat.id) ∧
      c2xCat.local_id = .vStr "c0" ∧
      "c0" ∉ pushedLocalIds (sortOperations c2xOps) .category ∧
      pushedLocalIds (sortOperations c2xOps) .category ≠ [] := by
  decide

/-- Failing-input fixtures: two stored categories (`cw`, `c0`), a stored
active item (`i1`) referencing `cw`, and a batch that pushes a fresh
category (an insert, flushed) and then repoints the stored item at `c0`
(an upsert — never flushed before cleanup). -/
def c3bW : CategoryR :=
  { id := .vStr "00000000-0000-0000-0000-0000000000b0", user_id := .vStr "u1",
    name := .vStr "Wound", description := .vNull, display_order := .vInt 0,
    is_default := .vBool false, local_id := .vStr "cw",
    created_at := nowV, updated_at := nowV }

def c3bX : CategoryR :=
  { id := .vStr "00000000-0000-0000-0000-0000000000b1", user_id := .vStr "u1",
    name := .vStr "Meds", description := .vNull, display_order := .vInt 1,
    is_default := .vBool false, local_id := .vStr "c0",
    created_at := nowV, updated_at := nowV }

def c3bItem : ItemR :=
  { id := .vStr "00000000-0000-0000-0000-0000000000b2", user_id := .vStr "u1",
    category_id := .vStr "00000000-0000-0000-0000-0000000000b0",
    name := .vStr "Aspirin", description := .vNull, quantity := .vInt 10,
    unit := .vStr "pieces", minimum_stock := .vInt 5, expiry_date := .vNull,
    brand := .vNull, notes := .vNull, supplier_name := .vNull,
    supplier_contact := .vNull, purchase_link := .vNull, image_uri := .vNull,
    is_active := .vBool true, is_critical := .vBool false, local_id := .vStr "i1",
    created_at := nowV, updated_at := nowV }

def c3bStore : Store := ⟨[c3bW, c3bX], [c3bItem], [], [], 7⟩

def c3bOps : List SyncOperation :=
  [{ id := "opA", type := .create, entity := .category, entity_id := "", local_id := "c9",
     data := some [("name", .vStr "New")], itemsData := none },
   { id := "opB", type := .update, entity := .item, entity_id := "", local_id := "i1",
     data := some [("categoryId", .vStr "c0")], itemsData := none }]

/-- C3.  The referential-safety invariant fails on this push: every
operation succeeds and the item update repoints the stored active item
`i1` at category `c0`, yet cleanup deletes `c0` — its referential check
read the database image, where the unflushed repointing was invisible —
and the commit cascade on the category link then deletes the pushed item
itself. -/
theorem category_cleanup_stale_check_bug :
    ((syncPush "u1" c3bOps c3bStore).1).all (fun r => r.success) = true ∧
      (∃ i ∈ ((processOps "u1" (sortOperations c3bOps) c3bStore).2).items,
        i.local_id = .vStr "i1" ∧ i.is_active = .vBool true ∧ i.category_id = c3bX.id) ∧
      c3bX ∉ ((syncPush "u1" c3bOps c3bStore).2).categories ∧
      (∀ i ∈ ((syncPush "u1" c3bOps c3bStore).2).items, i.local_id ≠ .vStr "i1") := by
  decide

/-! ## DELETE operations -/

/-- `scalar_one_or_none` on an empty match set. -/
lemma scalarOneOrNone_eq_none {α : Type} {p : α → Bool} {l : List α}
    (h : l.filter p = []) : scalarOneOrNone p l = .ok none := by
  unfold scalarOneOrNone; rw [h]


/-- `scalar_one_or_none` on a unique match. -/
lemma scalarOneOrNone_eq_some {α : Type} {p : α → Bool} {l : List α} {x : α}
    (h : l.filter p = [x]) : scalarOneOrNone p l = .ok (some x) := by
  unfold scalarOneOrNone; rw [h]

/-- C6.  For every DELETE operation on any entity type: when no stored
record of that type matches the operation's server id or client-local id
for this owner, the operation still reports success and the store is
unchanged; when a record matches (uniquely), the operation reports
success and the record is removed. -/
theorem delete_idempotent (uid : String) (op : SyncOperation) (s : Store)
    (hdel : op.type = .delete) :
    (op.entity = .category →
      (s.categories.filter (catMatchIdOrLocal uid op.entity_id op.local_id) = [] →
        ((processOperation uid op s).1).success = true ∧ (processOperation uid op s).2 = s) ∧
      (∀ c, s.categories.filter (catMatchIdOrLocal uid op.entity_id op.local_id) = [c] →
        ((processOperation uid op s).1).success = true ∧
          c ∉ ((processOperation uid op s).2).categories)) ∧
    (op.entity = .item →
      (s.items.filter (itemMatchIdOrLocal uid op.entity_id op.local_id) = [] →
        ((processOperation uid op s).1).success = true ∧ (processOperation uid op s).2 = s) ∧
      (∀ i, s.items.filter (itemMatchIdOrLocal uid op.entity_id op.local_id) = [i] →
        ((processOperation uid op s).1).success = true ∧
          i ∉ ((processOperation uid op s).2).items)) ∧
    (op.entity = .order →
      (s.orders.filter (orderMatchIdOrLocal uid op.entity_id op.local_id) = [] →
        ((processOperation uid op s).1).success = true ∧ (processOperation uid op s).2 = s) ∧
      (∀ o, s.orders.filter (orderMatchIdOrLocal uid op.entity_id op.local_id) = [o] →
        ((processOperation uid op s).1).success = true ∧
          o ∉ ((processOperation uid op s).2).orders)) := by
  obtain ⟨oid, otype, oent, oeid, olid, odata, oitems⟩ := op
  simp only at hdel
  subst hdel
  refine ⟨fun hent => ?_, fun hent => ?_, fun hent => ?_⟩ <;>
    (simp only at hent; subst hent)
  · constructor
    · intro hnone
      simp only [processOperation, syncCategory, scalarOneOrNone_eq_none hnone]
      exact ⟨trivial, trivial⟩
    · intro c hc
      simp only [processOperation, syncCategory, scalarOneOrNone_eq_some hc]
      refine ⟨trivial, fun hmem => ?_⟩
      have hpred : catMatchIdOrLocal uid oeid olid c = true := by
        have hcmem : c ∈ s.categories.filter (catMatchIdOrLocal uid oeid olid) := by
          rw [hc]; exact List.mem_singleton.mpr rfl
        exact (List.mem_filter.mp hcmem).2
      have hkeep := (List.mem_filter.mp hmem).2
      simp [hpred] at hkeep
  · constructor
    · intro hnone
      simp only [processOperation, syncItem, scalarOneOrNone_eq_none hnone]
      exact ⟨trivial, trivial⟩
    · intro i hi
      simp only [processOperation, syncItem, scalarOneOrNone_eq_some hi]
      refine ⟨trivial, fun hmem => ?_⟩
      have hpred : itemMatchIdOrLocal uid oeid olid i = true := by
        have himem : i ∈ s.items.filter (itemMatchIdOrLocal uid oeid olid) := by
          rw [hi]; exact List.mem_singleton.mpr rfl
        exact (List.mem_filter.mp himem).2
      have hkeep := (List.mem_filter.mp hmem).2
      simp [hpred] at hkeep
  · constructor
    · intro hnone
      simp only [processOperation, syncOrder, scalarOneOrNone_eq_none hnone]
      exact ⟨trivial, trivial⟩
    · intro o ho
      simp only [processOperation, syncOrder, scalarOneOrNone_eq_some ho]
      refine ⟨trivial, fun hmem => ?_⟩
      have hpred : orderMatchIdOrLocal uid oeid olid o = true := by
        have homem : o ∈ s.orders.filter (orderMatchIdOrLocal uid oeid olid) := by
          rw [ho]; exact List.mem_singleton.mpr rfl
        exact (List.mem_filter.mp homem).2
      have hkeep := (List.mem_filter.mp hmem).2
      simp [hpred] at hkeep


/-- Witness fixtures for C6: one stored category and a DELETE targeting
it by client-local id. -/
def c6wCat : CategoryR :=
  { id := .vStr "00000000-0000-0000-0000-000000000000", user_id := .vStr "u1",
    name := .vStr "Meds", description := .vNull, display_order := .vInt 0,
    is_default := .vBool false, local_id := .vStr "c0",
    created_at := nowV, updated_at := nowV }

def c6wStore : Store := ⟨[c6wCat], [], [], [], 1⟩

def c6wOp : SyncOperation :=
  { id := "opd", type := .delete, entity := .category, entity_id := "", local_id := "c0",
    data := none, itemsData := none }

theorem delete_idempotent_witness :
    ((processOperation "u1" c6wOp c6wStore).1).success = true ∧
      c6wCat ∉ ((processOperation "u1" c6wOp c6wStore).2).categories :=
  ((delete_idempotent "u1" c6wOp c6wStore (by decide)).1 (by decide)).2 c6wCat (by decide)

/-! ## The dynamic category UPDATE path -/

/-- C10.  On a category UPDATE of an existing row, every payload key
whose camelCase-to-snake_case translation names a mapped column of the
stored category is written to that column - including `userId` (the
owner), `localId` and `id` - so a payload exists for which a category
UPDATE reassigns the record to another user (and reports the overwritten
primary key back as the resolved server id). -/
theorem category_update_writes_any_column (uid : String) (op : SyncOperation) (s : Store)
    (c : CategoryR) (v₁ v₂ v₃ : Value)
    (hupd : op.type = .update) (hent : op.entity = .category)
    (hdata : op.data = some [("userId", v₁), ("localId", v₂), ("id", v₃)])
    (hnoitems : op.itemsData = none)
    (hc : s.categories.filter (catMatchIdOrLocal uid op.entity_id op.local_id) = [c]) :
    ((processOperation uid op s).1).success = true ∧
      ((processOperation uid op s).1).server_id = some v₃.pyStr ∧
      ((processOperation uid op s).2).categories =
        updateWhere (catMatchIdOrLocal uid op.entity_id op.local_id)
          (fun _ => { c with user_id := v₁, local_id := v₂, id := v₃, updated_at := nowV })
          s.categories ∧
      { c with user_id := v₁, local_id := v₂, id := v₃, updated_at := nowV } ∈
        ((processOperation uid op s).2).categories ∧
      (v₁ ≠ c.user_id → ∃ c' ∈ ((processOperation uid op s).2).categories,
        c'.id = v₃ ∧ c'.user_id ≠ c.user_id) := by
  obtain ⟨oid, otype, oent, oeid, olid, odata, oitems⟩ := op
  simp only at hupd hent hdata hnoitems
  subst hupd hent hdata hnoitems
  have hred : catApplyUpdateData [("userId", v₁), ("localId", v₂), ("id", v₃)] c =
      { c with user_id := v₁, local_id := v₂, id := v₃, updated_at := nowV } := rfl
  simp only [processOperation, syncCategory, scalarOneOrNone_eq_some hc, dataTruthy,
    List.isEmpty_cons, Bool.not_false, Bool.true_or, if_pos, hred]
  have hcpred : catMatchIdOrLocal uid oeid olid c = true := by
    have hcmem : c ∈ s.categories.filter (catMatchIdOrLocal uid oeid olid) := by
      rw [hc]; exact List.mem_singleton.mpr rfl
    exact (List.mem_filter.mp hcmem).2
  have hcmem0 : c ∈ s.categories := by
    have hcmem : c ∈ s.categories.filter (catMatchIdOrLocal uid oeid olid) := by
      rw [hc]; exact List.mem_singleton.mpr rfl
    exact (List.mem_filter.mp hcmem).1
  have hmem : { c with user_id := v₁, local_id := v₂, id := v₃, updated_at := nowV } ∈
      updateWhere (catMatchIdOrLocal uid oeid olid)
        (fun _ => { c with user_id := v₁, local_id := v₂, id := v₃, updated_at := nowV })
        s.categories := by
    unfold updateWhere
    refine List.mem_map.mpr ⟨c, hcmem0, ?_⟩
    rw [if_pos hcpred]
  refine ⟨trivial, trivial, trivial, hmem, fun hne => ⟨_, hmem, rfl, hne⟩⟩


/-- Witness fixtures for C10: an UPDATE whose payload rewrites the
owner, client-local id and primary key of a stored category. -/
def c10wCat : CategoryR :=
  { id := .vStr "00000000-0000-0000-0000-000000000000", user_id := .vStr "u1",
    name := .vStr "Meds", description := .vNull, display_order := .vInt 0,
    is_default := .vBool false, local_id := .vStr "c0",
    created_at := nowV, updated_at := nowV }

def c10wStore : Store := ⟨[c10wCat], [], [], [], 1⟩

def c10wNew : CategoryR :=
  { c10wCat with
    user_id := .vStr "u2"
    local_id := .vStr "stolen"
    id := .vStr "forged"
    updated_at := nowV }

def c10wOp : SyncOperation :=
  { id := "opu", type := .update, entity := .category, entity_id := "", local_id := "c0",
    data := some [("userId", .vStr "u2"), ("localId", .vStr "stolen"), ("id", .vStr "forged")],
    itemsData := none }

theorem category_update_writes_any_column_witness :
    ((processOperation "u1" c10wOp c10wStore).1).success = true ∧
      ((processOperation "u1" c10wOp c10wStore).1).server_id = some "forged" ∧
      ((processOperation "u1" c10wOp c10wStore).2).categories =
        updateWhere (catMatchIdOrLocal "u1" c10wOp.entity_id c10wOp.local_id)
          (fun _ => c10wNew) c10wStore.categories ∧
      c10wNew ∈ ((processOperation "u1" c10wOp c10wStore).2).categories ∧
      (Value.vStr "u2" ≠ c10wCat.user_id →
        ∃ c' ∈ ((processOperation "u1" c10wOp c10wStore).2).categories,
          c'.id = .vStr "forged" ∧ c'.user_id ≠ c10wCat.user_id) :=
  category_update_writes_any_column "u1" c10wOp c10wStore c10wCat
    (.vStr "u2") (.vStr "stolen") (.vStr "forged")
    (by decide) (by decide) (by decide) (by decide) (by decide)

/-! ## Item upserts and unresolvable category references -/

/-- A projection that no `field_mapping` write can change is preserved
by the whole write loop. -/
lemma foldl_setCol_pres (f : ItemR → Value)
    (ms : List (String × String))
    (hf : ∀ (i : ItemR) (m : String × String) (v : Value), m ∈ ms → f (i.setCol m.2 v) = f i)
    (d : Payload) (i : ItemR) :
    f (ms.foldl
        (fun acc m => if dmem d m.1 then acc.setCol m.2 (dgetD d m.1 .vNull) else acc) i) =
      f i := by
  induction ms generalizing i with
  | nil => rfl
  | cons m ms ih =>
    simp only [List.foldl_cons]
    rw [ih (fun j m' v hm' => hf j m' v (by simp [hm']))]
    split
    · exact hf i m _ (by simp)
    · rfl

/-- The item field-write loop keeps the category link, key, owner and
client-local id: none of the mapped columns is one of them. -/
lemma itemApplyData_untouched (d : Payload) (i : ItemR) :
    (itemApplyData d i).category_id = i.category_id ∧ (itemApplyData d i).id = i.id ∧
      (itemApplyData d i).user_id = i.user_id ∧ (itemApplyData d i).local_id = i.local_id := by
  unfold itemApplyData
  refine ⟨foldl_setCol_pres (fun x => x.category_id) itemFieldMapping ?_ d i,
    foldl_setCol_pres (fun x => x.id) itemFieldMapping ?_ d i,
    foldl_setCol_pres (fun x => x.user_id) itemFieldMapping ?_ d i,
    foldl_setCol_pres (fun x => x.local_id) itemFieldMapping ?_ d i⟩ <;>
    (intro j m v hm; fin_cases hm <;> rfl)


/-- A dict with a hit for some key is not empty. -/
lemma dget_ne_nil {d : Payload} {k : String} {v : Value} (h : dget d k = some v) :
    d.isEmpty = false := by
  cases d with
  | nil => simp [dget] at h
  | cons a l => rfl

/-- C1 (amended).  For an item CREATE or UPDATE whose payload carries a
truthy category reference the Identity Resolver cannot resolve for this
owner: when no stored item matches, the insert violates the NOT NULL
constraint on the category link, so the operation is reported failed
with an error and nothing is stored; when an existing item matches, the
unresolvable reference is silently ignored, the operation is reported
successful, and the stored item keeps its previous category link — so on
no path is an item created or left stored without its category link, but
the upsert paths report success, not failure. -/
theorem item_unresolved_category (uid : String) (op : SyncOperation) (s : Store)
    (d : Payload) (ref : Value)
    (hent : op.entity = .item)
    (hdata : op.data = some d)
    (href : dget d "categoryId" = some ref)
    (htruthy : ref.truthy = true)
    (hnocat : s.categories.filter (catRefMatch uid ref) = []) :
    (op.type = .create →
      s.items.filter (itemMatchLocal uid op.local_id) = [] →
      ((processOperation uid op s).1).success = false ∧
        ((processOperation uid op s).1).error.isSome = true ∧
        (processOperation uid op s).2 = s) ∧
    (op.type = .create → ∀ i, s.items.filter (itemMatchLocal uid op.local_id) = [i] →
      ((processOperation uid op s).1).success = true ∧
        ((processOperation uid op s).2).items =
          updateWhere (itemMatchLocal uid op.local_id) (fun _ => itemApplyData d i) s.items ∧
        (itemApplyData d i).category_id = i.category_id) ∧
    (op.type = .update → ∀ i,
      s.items.filter (itemMatchIdOrLocal uid op.entity_id op.local_id) = [i] →
      ((processOperation uid op s).1).success = true ∧
        ((processOperation uid op s).2).items =
          updateWhere (itemMatchIdOrLocal uid op.entity_id op.local_id)
            (fun _ => itemApplyData d i) s.items ∧
        (itemApplyData d i).category_id = i.category_id) ∧
    (op.type = .update →
      s.items.filter (itemMatchIdOrLocal uid op.entity_id op.local_id) = [] →
      s.items.filter (itemMatchLocal uid op.local_id) = [] →
      ((processOperation uid op s).1).success = false ∧
        ((processOperation uid op s).1).error.isSome = true ∧
        (processOperation uid op s).2 = s) := by
  obtain ⟨oid, otype, oent, oeid, olid, odata, oitems⟩ := op
  simp only at hent hdata
  subst hent hdata
  have htr : dataTruthy
      ⟨oid, otype, .item, oeid, olid, some d, oitems⟩ = true := by
    simp [dataTruthy, dget_ne_nil href]
  have hresolve : ∀ i : ItemR, itemResolveCat uid d i s = .ok i := by
    intro i
    unfold itemResolveCat
    rw [href]
    simp only [htruthy, if_pos]
    rw [scalarOneOrNone_eq_none hnocat]
  refine ⟨?_, ?_, ?_, ?_⟩
  · -- fresh CREATE
    rintro rfl hnone
    simp only [processOperation, syncItem, syncItemCreate, scalarOneOrNone_eq_none hnone,
      href, htruthy, if_pos, scalarOneOrNone_eq_none hnocat]
    exact ⟨rfl, rfl, rfl⟩
  · -- CREATE upsert
    rintro rfl i hi
    simp only [processOperation, syncItem, syncItemCreate, scalarOneOrNone_eq_some hi,
      htr, if_pos, hresolve i]
    exact ⟨trivial, trivial, (itemApplyData_untouched d i).1⟩
  · -- UPDATE on an existing row
    rintro rfl i hi
    simp only [processOperation, syncItem, scalarOneOrNone_eq_some hi, htr, if_pos,
      hresolve i]
    exact ⟨trivial, trivial, (itemApplyData_untouched d i).1⟩
  · -- UPDATE falling back to CREATE
    rintro rfl hnone hnonelocal
    simp only [processOperation, syncItem, scalarOneOrNone_eq_none hnone, syncItemCreate,
      scalarOneOrNone_eq_none hnonelocal, href, htruthy, if_pos,
      scalarOneOrNone_eq_none hnocat]
    exact ⟨rfl, rfl, rfl⟩


/-- Fixtures for C1: a stored category and an item linked to it, and an
UPDATE whose payload carries the unresolvable category reference
`"nope"`. -/
def c1wCat : CategoryR :=
  { id := .vStr "00000000-0000-0000-0000-000000000000", user_id := .vStr "u1",
    name := .vStr "Meds", description := .vNull, display_order := .vInt 0,
    is_default := .vBool false, local_id := .vStr "c0",
    created_at := nowV, updated_at := nowV }

def c1wItem : ItemR :=
  { id := .vStr "00000000-0000-0000-0000-000000000001", user_id := .vStr "u1",
    category_id := .vStr "00000000-0000-0000-0000-000000000000",
    name := .vStr "Aspirin", description := .vNull, quantity := .vInt 10,
    unit := .vStr "pieces", minimum_stock := .vInt 5, expiry_date := .vNull,
    brand := .vNull, notes := .vNull, supplier_name := .vNull,
    supplier_contact := .vNull, purchase_link := .vNull, image_uri := .vNull,
    is_active := .vBool true, is_critical := .vBool false, local_id := .vStr "i1",
    created_at := nowV, updated_at := nowV }

def c1wStore : Store := ⟨[c1wCat], [c1wItem], [], [], 2⟩

def c1wData : Payload := [("categoryId", .vStr "nope")]

def c1wOp : SyncOperation :=
  { id := "opx", type := .update, entity := .item, entity_id := "", local_id := "i1",
    data := some c1wData, itemsData := none }

/-- C1, counterexample: this item UPDATE carries a category reference the
Identity Resolver cannot resolve for this owner, yet the operation is
reported successful with no error, contradicting the claim that such an
operation is reported as failed with a descriptive error. -/
theorem item_unresolved_category_counterexample :
    c1wOp.entity = .item ∧ c1wOp.type = .update ∧
      c1wOp.data = some c1wData ∧ dget c1wData "categoryId" = some (.vStr "nope") ∧
      (Value.vStr "nope").truthy = true ∧
      c1wStore.categories.filter (catRefMatch "u1" (.vStr "nope")) = [] ∧
      ((processOperation "u1" c1wOp c1wStore).1).success = true ∧
      ((processOperation "u1" c1wOp c1wStore).1).error = none := by
  refine ⟨rfl, rfl, rfl, rfl, rfl, by decide, by decide, by decide⟩

theorem item_unresolved_category_witness :
    ((processOperation "u1" c1wOp c1wStore).1).success = true ∧
      ((processOperation "u1" c1wOp c1wStore).2).items =
        updateWhere (itemMatchIdOrLocal "u1" "" "i1")
          (fun _ => itemApplyData c1wData c1wItem) c1wStore.items ∧
      (itemApplyData c1wData c1wItem).category_id = c1wItem.category_id :=
  (item_unresolved_category "u1" c1wOp c1wStore c1wData (.vStr "nope") rfl rfl rfl
    (by decide) (by decide)).2.2.1 rfl c1wItem (by decide)

/-! ## Applying an order to stock -/

/-- The total quantity the order's line items add to a given live item
(zero for an item no line references). -/
def lineSum (uid : String) (lines : List OrderItemR) (i : ItemR) : Int :=
  ((lines.filter (fun oi => i.id == oi.item_id && i.user_id == Value.vStr uid)).map
    (fun oi => oi.quantity.intOf)).sum

lemma lineSum_cons (uid : String) (oi : OrderItemR) (rest : List OrderItemR) (i : ItemR) :
    lineSum uid (oi :: rest) i =
      (if i.id == oi.item_id && i.user_id == Value.vStr uid then oi.quantity.intOf else 0) +
        lineSum uid rest i := by
  unfold lineSum
  rw [List.filter_cons]
  split
  · simp
  · simp

/-- `lineSum` only reads the item's id and owner. -/
lemma lineSum_congr (uid : String) (lines : List OrderItemR) {i j : ItemR}
    (hid : i.id = j.id) (hu : i.user_id = j.user_id) :
    lineSum uid lines i = lineSum uid lines j := by
  unfold lineSum
  rw [List.filter_congr]
  intro oi _
  rw [hid, hu]

/-- With pairwise-distinct primary keys, the per-line item lookup is
unambiguous. -/
lemma filter_item_lookup (items : List ItemR) (hids : items.Pairwise (fun a b => a.id ≠ b.id))
    (oi : OrderItemR) (uid : String) :
    items.filter (fun i => i.id == oi.item_id && i.user_id == Value.vStr uid) = [] ∨
      ∃ x, items.filter (fun i => i.id == oi.item_id && i.user_id == Value.vStr uid) = [x] := by
  have hpf := hids.filter (fun i => i.id == oi.item_id && i.user_id == Value.vStr uid)
  cases hfil : items.filter (fun i => i.id == oi.item_id && i.user_id == Value.vStr uid) with
  | nil => exact Or.inl rfl
  | cons x xs =>
    cases xs with
    | nil => exact Or.inr ⟨x, rfl⟩
    | cons y ys =>
      exfalso
      rw [hfil] at hpf
      have hxy : x.id ≠ y.id := (List.pairwise_cons.mp hpf).1 y (by simp)
      have hx : x ∈ items.filter (fun i => i.id == oi.item_id && i.user_id == Value.vStr uid) := by
        rw [hfil]; simp
      have hy : y ∈ items.filter (fun i => i.id == oi.item_id && i.user_id == Value.vStr uid) := by
        rw [hfil]; simp
      have hxp := (List.mem_filter.mp hx).2
      have hyp := (List.mem_filter.mp hy).2
      simp only [Bool.and_eq_true, beq_iff_eq] at hxp hyp
      exact hxy (hxp.1.trans hyp.1.symm)

/-- The stock-update loop, characterized: it succeeds and adds to each
live item exactly the summed quantity of the lines that reference it. -/
lemma applyLines_eq (uid : String) (lines : List OrderItemR) (items : List ItemR)
    (hq : ∀ i ∈ items, ∃ n : Int, i.quantity = .vInt n)
    (hl : ∀ oi ∈ lines, ∃ n : Int, oi.quantity = .vInt n)
    (hids : items.Pairwise (fun a b => a.id ≠ b.id)) :
    applyLines uid lines items = .ok (items.map (fun i =>
      { i with quantity := .vInt (i.quantity.intOf + lineSum uid lines i) })) := by
  induction lines generalizing items with
  | nil =>
    have hmap : (items.map (fun i =>
        ({ i with quantity := .vInt (i.quantity.intOf + lineSum uid [] i) } : ItemR))) =
          items := by
      have hpt : ∀ i ∈ items,
          ({ i with quantity := .vInt (i.quantity.intOf + lineSum uid [] i) } : ItemR) =
            id i := by
        intro i hi
        obtain ⟨n, hn⟩ := hq i hi
        have hv : (Value.vInt (i.quantity.intOf + lineSum uid [] i)) = i.quantity := by
          rw [hn]; simp [Value.intOf, lineSum]
        show ({ i with quantity := .vInt (i.quantity.intOf + lineSum uid [] i) } : ItemR) = i
        rw [hv]
      rw [List.map_congr_left hpt, List.map_id]
    unfold applyLines
    rw [hmap]
  | cons oi rest ih =>
    have hlrest : ∀ o ∈ rest, ∃ n : Int, o.quantity = .vInt n :=
      fun o ho => hl o (by simp [ho])
    rcases filter_item_lookup items hids oi uid with hnone | ⟨hit, hone⟩
    · -- no live item matches this line: it contributes nothing
      unfold applyLines
      rw [scalarOneOrNone_eq_none hnone]
      show applyLines uid rest items = _
      rw [ih items hq hlrest hids]
      congr 1
      apply List.map_congr_left
      intro i hi
      have hpred : (i.id == oi.item_id && i.user_id == Value.vStr uid) = false := by
        by_contra hb
        have hmem : i ∈ items.filter
            (fun i => i.id == oi.item_id && i.user_id == Value.vStr uid) :=
          List.mem_filter.mpr ⟨hi, by simpa using hb⟩
        rw [hnone] at hmem
        cases hmem
      rw [lineSum_cons, hpred]
      simp
    · -- the unique matching live item receives the line quantity
      have hhitfil : hit ∈ items.filter
          (fun i => i.id == oi.item_id && i.user_id == Value.vStr uid) := by
        rw [hone]; simp
      have hhitmem : hit ∈ items := (List.mem_filter.mp hhitfil).1
      have hhitpred := (List.mem_filter.mp hhitfil).2
      obtain ⟨a, ha⟩ := hq hit hhitmem
      obtain ⟨b, hb⟩ := hl oi (by simp)
      unfold applyLines
      rw [scalarOneOrNone_eq_some hone]
      have happ : applyOneLine uid oi hit items = .ok (updateWhere
          (fun i => i.id == oi.item_id && i.user_id == Value.vStr uid)
          (fun i => { i with quantity := .vInt (a + b) }) items) := by
        unfold applyOneLine
        rw [ha, hb]
      show (match applyOneLine uid oi hit items with
        | .error e => (Except.error e : Except String (List ItemR))
        | .ok items₁ => applyLines uid rest items₁) = _
      rw [happ]
      have hq2 : ∀ i ∈ updateWhere
          (fun i => i.id == oi.item_id && i.user_id == Value.vStr uid)
          (fun i => { i with quantity := .vInt (a + b) }) items,
          ∃ n : Int, i.quantity = .vInt n := by
        intro i hi
        rcases List.mem_map.mp hi with ⟨j, hj, rfl⟩
        by_cases hp : (j.id == oi.item_id && j.user_id == Value.vStr uid) = true
        · rw [if_pos hp]; exact ⟨a + b, rfl⟩
        · rw [if_neg hp]; exact hq j hj
      have hids2 : (updateWhere
          (fun i => i.id == oi.item_id && i.user_id == Value.vStr uid)
          (fun i => { i with quantity := .vInt (a + b) }) items).Pairwise
            (fun x y => x.id ≠ y.id) := by
        unfold updateWhere
        rw [List.pairwise_map]
        refine hids.imp ?_
        intro x y hxy
        have hx : (if x.id == oi.item_id && x.user_id == Value.vStr uid then
            ({ x with quantity := .vInt (a + b) } : ItemR) else x).id = x.id := by
          split <;> rfl
        have hy : (if y.id == oi.item_id && y.user_id == Value.vStr uid then
            ({ y with quantity := .vInt (a + b) } : ItemR) else y).id = y.id := by
          split <;> rfl
        rw [hx, hy]; exact hxy
      show applyLines uid rest (updateWhere
        (fun i => i.id == oi.item_id && i.user_id == Value.vStr uid)
        (fun i => { i with quantity := .vInt (a + b) }) items) = _
      rw [ih _ hq2 hlrest hids2]
      congr 1
      unfold updateWhere
      rw [List.map_map]
      apply List.map_congr_left
      intro i hi
      simp only [Function.comp]
      by_cases hp : (i.id == oi.item_id && i.user_id == Value.vStr uid) = true
      · -- this is the hit
        have hieq : i = hit := by
          have hmem : i ∈ items.filter
              (fun i => i.id == oi.item_id && i.user_id == Value.vStr uid) :=
            List.mem_filter.mpr ⟨hi, hp⟩
          rw [hone] at hmem
          simpa using hmem
        rw [if_pos hp]
        have hsum : lineSum uid rest ({ i with quantity := .vInt (a + b) } : ItemR) =
            lineSum uid rest i := lineSum_congr uid rest rfl rfl
        show ({ i with quantity := .vInt ((Value.vInt (a + b)).intOf +
            lineSum uid rest ({ i with quantity := .vInt (a + b) } : ItemR)) } : ItemR) =
          { i with quantity := .vInt (i.quantity.intOf + lineSum uid (oi :: rest) i) }
        rw [hsum]
        have hqv : (Value.vInt (a + b)).intOf + lineSum uid rest i =
            i.quantity.intOf + lineSum uid (oi :: rest) i := by
          rw [lineSum_cons, hp, hieq, ha, hb]
          simp [Value.intOf]
          omega
        rw [hqv]
      · rw [if_neg hp]
        have : lineSum uid (oi :: rest) i = lineSum uid rest i := by
          rw [lineSum_cons]
          simp only [Bool.not_eq_true] at hp
          rw [hp]
          simp
        rw [this]


/-- C8.  Applying an order to stock succeeds exactly when the order is
in `received` status: on success the order transitions to
`stock_updated` and every live item's quantity grows by the summed
ordered quantity of the lines referencing it (zero when none does,
line items and categories untouched); in any other status the request
is rejected with HTTP 400 and, the transaction rolling back, no state
is produced. -/
theorem apply_order_to_stock_spec (uid ref : String) (s : Store) (o : OrderR)
    (hmatch : s.orders.filter (applyMatch uid ref) = [o])
    (hq : ∀ i ∈ s.items, ∃ n : Int, i.quantity = .vInt n)
    (hl : ∀ oi ∈ s.orderItems, oi.order_id = o.id → ∃ n : Int, oi.quantity = .vInt n)
    (hids : s.items.Pairwise (fun a b => a.id ≠ b.id)) :
    ((∃ s', applyOrderToStock uid ref s = .ok s') ↔ o.status = .received) ∧
    (∀ s', applyOrderToStock uid ref s = .ok s' →
      (∃ o' ∈ s'.orders, o'.id = o.id ∧ o'.status = .stock_updated) ∧
      s'.items = s.items.map (fun i =>
        { i with quantity := .vInt (i.quantity.intOf +
            lineSum uid (s.orderItems.filter (fun oi => oi.order_id == o.id)) i) }) ∧
      s'.categories = s.categories ∧ s'.orderItems = s.orderItems) ∧
    (o.status ≠ .received →
      applyOrderToStock uid ref s =
        .error "400: Order must be in received status to apply to stock") := by
  have homem : o ∈ s.orders ∧ applyMatch uid ref o = true := by
    have : o ∈ s.orders.filter (applyMatch uid ref) := by rw [hmatch]; simp
    exact ⟨(List.mem_filter.mp this).1, (List.mem_filter.mp this).2⟩
  have hl' : ∀ oi ∈ s.orderItems.filter (fun oi => oi.order_id == o.id),
      ∃ n : Int, oi.quantity = .vInt n := by
    intro oi hoi
    have h1 := (List.mem_filter.mp hoi).1
    have h2 := (List.mem_filter.mp hoi).2
    exact hl oi h1 (by simpa using h2)
  by_cases hst : o.status = OrderStatus.received
  · have happ := applyLines_eq uid (s.orderItems.filter (fun oi => oi.order_id == o.id))
      s.items hq hl' hids
    have heq : applyOrderToStock uid ref s = .ok { s with
        items := s.items.map (fun i =>
          { i with quantity := .vInt (i.quantity.intOf +
              lineSum uid (s.orderItems.filter (fun oi => oi.order_id == o.id)) i) })
        orders := updateWhere (applyMatch uid ref)
          (fun o => { o with status := .stock_updated, applied_at := nowV }) s.orders } := by
      unfold applyOrderToStock
      rw [scalarOneOrNone_eq_some hmatch]
      show (if o.status != OrderStatus.received then
          (Except.error "400: Order must be in received status to apply to stock" :
            Except String Store)
        else
          match applyLines uid (s.orderItems.filter (fun oi => oi.order_id == o.id))
              s.items with
          | .error e => Except.error e
          | .ok items' => Except.ok { s with
              items := items'
              orders := updateWhere (applyMatch uid ref)
                (fun o => { o with status := .stock_updated, applied_at := nowV })
                s.orders }) = _
      have hbne : (o.status != OrderStatus.received) = false := by
        simp [hst]
      rw [hbne]
      simp only [Bool.false_eq_true, if_false]
      rw [happ]
    refine ⟨⟨fun _ => hst, fun _ => ⟨_, heq⟩⟩, ?_, fun hne => absurd hst hne⟩
    intro s' hs'
    rw [heq] at hs'
    injection hs' with hs'
    subst hs'
    refine ⟨⟨{ o with status := .stock_updated, applied_at := nowV }, ?_, rfl, rfl⟩, rfl, rfl, rfl⟩
    unfold updateWhere
    exact List.mem_map.mpr ⟨o, homem.1, by rw [if_pos homem.2]⟩
  · have herr : applyOrderToStock uid ref s =
        .error "400: Order must be in received status to apply to stock" := by
      unfold applyOrderToStock
      rw [scalarOneOrNone_eq_some hmatch]
      show (if o.status != OrderStatus.received then
          (Except.error "400: Order must be in received status to apply to stock" :
            Except String Store)
        else
          match applyLines uid (s.orderItems.filter (fun oi => oi.order_id == o.id))
              s.items with
          | .error e => Except.error e
          | .ok items' => Except.ok { s with
              items := items'
              orders := updateWhere (applyMatch uid ref)
                (fun o => { o with status := .stock_updated, applied_at := nowV })
                s.orders }) = _
      have hbne : (o.status != OrderStatus.received) = true := by
        simpa using hst
      rw [hbne]
      simp only [if_true]
    refine ⟨⟨?_, fun h => absurd h hst⟩, ?_, fun _ => herr⟩
    · rintro ⟨s', hs'⟩
      rw [herr] at hs'
      cases hs'
    · intro s' hs'
      rw [herr] at hs'
      cases hs'


/-- Witness fixtures for C8: a `received` order with one line adding 5
units to the single live item. -/
def c8wOrder : OrderR :=
  { id := .vStr "00000000-0000-0000-0000-00000000000a", user_id := .vStr "u1",
    order_id := .vStr "ORD-20260115-0001", total_items := .vInt 1, total_units := .vInt 5,
    status := .received, exported_at := nowV, ordered_at := .vNull, received_at := nowV,
    applied_at := .vNull, declined_at := .vNull, local_id := .vStr "o1",
    created_at := nowV, updated_at := nowV }

def c8wItem : ItemR :=
  { id := .vStr "00000000-0000-0000-0000-000000000001", user_id := .vStr "u1",
    category_id := .vStr "00000000-0000-0000-0000-000000000000",
    name := .vStr "Aspirin", description := .vNull, quantity := .vInt 10,
    unit := .vStr "pieces", minimum_stock := .vInt 5, expiry_date := .vNull,
    brand := .vNull, notes := .vNull, supplier_name := .vNull,
    supplier_contact := .vNull, purchase_link := .vNull, image_uri := .vNull,
    is_active := .vBool true, is_critical := .vBool false, local_id := .vStr "i1",
    created_at := nowV, updated_at := nowV }

def c8wLine : OrderItemR :=
  { id := .vStr "00000000-0000-0000-0000-00000000000b",
    order_id := .vStr "00000000-0000-0000-0000-00000000000a",
    item_id := .vStr "00000000-0000-0000-0000-000000000001",
    name := .vStr "Aspirin", brand := .vNull, unit := .vStr "pieces",
    quantity := .vInt 5, current_stock := .vInt 10, minimum_stock := .vInt 5,
    image_uri := .vNull, supplier_name := .vNull, purchase_link := .vNull }

def c8wStore : Store := ⟨[], [c8wItem], [c8wOrder], [c8wLine], 12⟩

theorem apply_order_to_stock_spec_witness :
    ((∃ s', applyOrderToStock "u1" "ORD-20260115-0001" c8wStore = .ok s') ↔
      c8wOrder.status = .received) ∧
      (c8wOrder.status ≠ .received →
        applyOrderToStock "u1" "ORD-20260115-0001" c8wStore =
          .error "400: Order must be in received status to apply to stock") :=
  ⟨(apply_order_to_stock_spec "u1" "ORD-20260115-0001" c8wStore c8wOrder
      (by decide)
      (by intro i hi; simp only [c8wStore, List.mem_singleton] at hi; subst hi; exact ⟨10, rfl⟩)
      (by intro oi hoi h; simp only [c8wStore, List.mem_singleton] at hoi; subst hoi; exact ⟨5, rfl⟩)
      (by decide)).1,
    (apply_order_to_stock_spec "u1" "ORD-20260115-0001" c8wStore c8wOrder
      (by decide)
      (by intro i hi; simp only [c8wStore, List.mem_singleton] at hi; subst hi; exact ⟨10, rfl⟩)
      (by intro oi hoi h; simp only [c8wStore, List.mem_singleton] at hoi; subst hoi; exact ⟨5, rfl⟩)
      (by decide)).2.2⟩

/-! ## CREATE idempotence -/

/-- Rows that fail the predicate are untouched, so an empty match set
stays empty. -/
lemma filter_updateWhere_nil {α : Type} (p : α → Bool) (f : α → α) (l : List α)
    (h : l.filter p = []) : (updateWhere p f l).filter p = [] := by
  induction l with
  | nil => rfl
  | cons a l ih =>
    rw [List.filter_cons] at h
    by_cases pa : p a = true
    · rw [if_pos pa] at h; cases h
    · rw [if_neg pa] at h
      unfold updateWhere at ih ⊢
      simp only [List.map_cons, if_neg pa, List.filter_cons]
      exact ih h

/-- Updating the unique matching row in place leaves it the unique
matching row, provided the replacement still matches. -/
lemma filter_updateWhere_const {α : Type} (p : α → Bool) (x' : α) (l : List α) (x : α)
    (h : l.filter p = [x]) (hx' : p x' = true) :
    (updateWhere p (fun _ => x') l).filter p = [x'] := by
  induction l with
  | nil => cases h
  | cons a l ih =>
    rw [List.filter_cons] at h
    unfold updateWhere
    simp only [List.map_cons]
    by_cases pa : p a = true
    · rw [if_pos pa] at h
      injection h with h1 h2
      rw [if_pos pa, List.filter_cons, if_pos hx']
      congr 1
      exact filter_updateWhere_nil p _ l h2
    · rw [if_neg pa] at h
      rw [if_neg pa, List.filter_cons, if_neg pa]
      exact ih h

/-- A projection unchanged on every matching row passes through the
in-place update. -/
lemma map_updateWhere {α β : Type} (p : α → Bool) (f : α → α) (g : α → β) (l : List α)
    (h : ∀ x ∈ l, p x = true → g (f x) = g x) :
    (updateWhere p f l).map g = l.map g := by
  unfold updateWhere
  rw [List.map_map]
  apply List.map_congr_left
  intro x hx
  simp only [Function.comp]
  split
  · exact h x hx (by assumption)
  · rfl

/-- The category CREATE-upsert writes keep identity and ownership. -/
lemma catApplyCreateData_untouched (d : Payload) (c : CategoryR) :
    (catApplyCreateData d c).id = c.id ∧ (catApplyCreateData d c).user_id = c.user_id ∧
      (catApplyCreateData d c).local_id = c.local_id :=
  ⟨rfl, rfl, rfl⟩

/-- The category-reference resolution step only ever rewrites the
category link. -/
lemma itemResolveCat_ok_fields {uid : String} {d : Payload} {i j : ItemR} {s : Store}
    (h : itemResolveCat uid d i s = .ok j) :
    j.id = i.id ∧ j.user_id = i.user_id ∧ j.local_id = i.local_id := by
  unfold itemResolveCat at h
  split at h
  · injection h with h; subst h; exact ⟨rfl, rfl, rfl⟩
  · split at h
    · split at h
      · cases h
      · injection h with h; subst h; exact ⟨rfl, rfl, rfl⟩
      · injection h with h; subst h; exact ⟨rfl, rfl, rfl⟩
    · injection h with h; subst h; exact ⟨rfl, rfl, rfl⟩


lemma scalarOneOrNone_ok_some {α : Type} {p : α → Bool} {l : List α} {x : α}
    (h : scalarOneOrNone p l = .ok (some x)) : l.filter p = [x] := by
  unfold scalarOneOrNone at h
  revert h
  cases hf : l.filter p with
  | nil => intro h; cases h
  | cons a t =>
    cases t with
    | nil => intro h; injection h with h; injection h with h; rw [h]
    | cons b t2 => intro h; cases h

lemma scalarOneOrNone_ok_none {α : Type} {p : α → Bool} {l : List α}
    (h : scalarOneOrNone p l = .ok none) : l.filter p = [] := by
  unfold scalarOneOrNone at h
  revert h
  cases hf : l.filter p with
  | nil => intro _; rfl
  | cons a t =>
    cases t with
    | nil => intro h; injection h with h; cases h
    | cons b t2 => intro h; cases h

lemma syncCategoryCreate_idem (uid : String) (op : SyncOperation) (s : Store)
    (h1 : (syncCategoryCreate uid op s).1.success = true) :
    (syncCategoryCreate uid op (syncCategoryCreate uid op s).2).1.success = true ∧
      (syncCategoryCreate uid op (syncCategoryCreate uid op s).2).1.server_id =
        (syncCategoryCreate uid op s).1.server_id ∧
      ((syncCategoryCreate uid op (syncCategoryCreate uid op s).2).2).categories.map
          (fun c => c.id) =
        ((syncCategoryCreate uid op s).2).categories.map (fun c => c.id) := by
  cases hs : scalarOneOrNone (catMatchLocal uid op.local_id) s.categories with
  | error e =>
    exfalso
    unfold syncCategoryCreate at h1
    rw [hs] at h1
    cases h1
  | ok oex =>
    cases oex with
    | some ex =>
      have hfil := scalarOneOrNone_ok_some hs
      have hpredex : catMatchLocal uid op.local_id ex = true := by
        have hmem : ex ∈ s.categories.filter (catMatchLocal uid op.local_id) := by
          rw [hfil]; simp
        exact (List.mem_filter.mp hmem).2
      set ex' := (match op.data with
        | some d => if dataTruthy op then catApplyCreateData d ex else ex
        | none => ex) with hex'
      have huser : ex'.user_id = ex.user_id := by
        rw [hex']
        cases op.data with
        | none => rfl
        | some d =>
          dsimp only
          split <;> rfl
      have hlocal : ex'.local_id = ex.local_id := by
        rw [hex']
        cases op.data with
        | none => rfl
        | some d =>
          dsimp only
          split <;> rfl
      have hpredex' : catMatchLocal uid op.local_id ex' = true := by
        unfold catMatchLocal at hpredex ⊢
        rw [huser, hlocal]
        exact hpredex
      have hrun1 : syncCategoryCreate uid op s =
          ({ operation_id := op.id, success := true, entity_id := some op.entity_id,
             server_id := some ex'.id.pyStr },
           { s with
             categories := updateWhere (catMatchLocal uid op.local_id) (fun _ => ex') s.categories }) := by
        unfold syncCategoryCreate
        rw [hs]
      set s1 := (syncCategoryCreate uid op s).2 with hs1v
      have hfil2 : s1.categories.filter (catMatchLocal uid op.local_id) = [ex'] := by
        rw [hs1v, hrun1]
        exact filter_updateWhere_const _ ex' s.categories ex hfil hpredex'
      have hs2 : scalarOneOrNone (catMatchLocal uid op.local_id) s1.categories =
          .ok (some ex') :=
        scalarOneOrNone_eq_some hfil2
      set ex'' := (match op.data with
        | some d => if dataTruthy op then catApplyCreateData d ex' else ex'
        | none => ex') with hex''
      have hid2 : ex''.id = ex'.id := by
        rw [hex'']
        cases op.data with
        | none => rfl
        | some d =>
          dsimp only
          split <;> rfl
      have hrun2 : syncCategoryCreate uid op s1 =
          ({ operation_id := op.id, success := true, entity_id := some op.entity_id,
             server_id := some ex''.id.pyStr },
           { s1 with
             categories := updateWhere (catMatchLocal uid op.local_id) (fun _ => ex'') s1.categories }) := by
        unfold syncCategoryCreate
        rw [hs2]
      rw [hrun2]
      refine ⟨rfl, ?_, ?_⟩
      · rw [hrun1]
        dsimp only
        rw [hid2]
      · dsimp only
        apply map_updateWhere
        intro x hx hpx
        have hxex : x = ex' := by
          have hxmem : x ∈ s1.categories.filter (catMatchLocal uid op.local_id) :=
            List.mem_filter.mpr ⟨hx, hpx⟩
          rw [hfil2] at hxmem
          simpa using hxmem
        rw [hxex, hid2]
    | none =>
      cases hd : op.data with
      | none =>
        exfalso
        unfold syncCategoryCreate at h1
        rw [hs, hd] at h1
        cases h1
      | some d =>
        by_cases hflush : catFlushOk
            { id := .vStr (mkServerId s.nextId)
              user_id := .vStr uid
              name := dgetD d "name" (.vStr "Untitled")
              description := dgetD d "description" .vNull
              display_order := dgetD d "displayOrder" (.vInt 0)
              is_default := dgetD d "isDefault" (.vBool false)
              local_id := .vStr op.local_id
              created_at := nowV
              updated_at := nowV } = true
        case neg =>
          exfalso
          unfold syncCategoryCreate at h1
          rw [hs, hd] at h1
          dsimp only at h1
          rw [if_neg hflush] at h1
          cases h1
        case pos =>
          set cat : CategoryR :=
            { id := .vStr (mkServerId s.nextId)
              user_id := .vStr uid
              name := dgetD d "name" (.vStr "Untitled")
              description := dgetD d "description" .vNull
              display_order := dgetD d "displayOrder" (.vInt 0)
              is_default := dgetD d "isDefault" (.vBool false)
              local_id := .vStr op.local_id
              created_at := nowV
              updated_at := nowV } with hcat
          have hrun1 : syncCategoryCreate uid op s =
              ({ operation_id := op.id, success := true, entity_id := some op.entity_id,
                 server_id := some (mkServerId s.nextId) },
               { s with categories := s.categories ++ [cat], nextId := s.nextId + 1 }) := by
            unfold syncCategoryCreate
            rw [hs, hd]
            dsimp only
            rw [if_pos hflush]
          set s1 := (syncCategoryCreate uid op s).2 with hs1v
          have hpredcat : catMatchLocal uid op.local_id cat = true := by
            rw [hcat]
            unfold catMatchLocal
            simp
          have hfil2 : s1.categories.filter (catMatchLocal uid op.local_id) = [cat] := by
            rw [hs1v, hrun1]
            dsimp only
            rw [List.filter_append, scalarOneOrNone_ok_none hs, List.filter_cons,
              if_pos hpredcat]
            rfl
          have hs2 : scalarOneOrNone (catMatchLocal uid op.local_id) s1.categories =
              .ok (some cat) :=
            scalarOneOrNone_eq_some hfil2
          set cat' := (match op.data with
            | some d => if dataTruthy op then catApplyCreateData d cat else cat
            | none => cat) with hcat'
          have hid2 : cat'.id = cat.id := by
            rw [hcat']
            cases op.data with
            | none => rfl
            | some d =>
              dsimp only
              split <;> rfl
          have hrun2 : syncCategoryCreate uid op s1 =
              ({ operation_id := op.id, success := true, entity_id := some op.entity_id,
                 server_id := some cat'.id.pyStr },
               { s1 with
                 categories := updateWhere (catMatchLocal uid op.local_id) (fun _ => cat') s1.categories }) := by
            unfold syncCategoryCreate
            rw [hs2]
          rw [hrun2]
          refine ⟨rfl, ?_, ?_⟩
          · rw [hrun1]
            dsimp only
            rw [hid2, hcat]
            rfl
          · dsimp only
            apply map_updateWhere
            intro x hx hpx
            have hxcat : x = cat := by
              have hxmem : x ∈ s1.categories.filter (catMatchLocal uid op.local_id) :=
                List.mem_filter.mpr ⟨hx, hpx⟩
              rw [hfil2] at hxmem
              simpa using hxmem
            rw [hxcat, hid2]


/-- The category-reference resolution of `_sync_item`, characterized:
for a fixed payload it either always raises, or acts as one fixed
rewrite of the category link (identity on a miss), the same over any
store with the same categories. -/
lemma itemResolveCat_char (uid : String) (d : Payload) (s : Store) :
    (∃ e, ∀ i : ItemR, itemResolveCat uid d i s = .error e) ∨
    ∃ F : ItemR → ItemR,
      (∀ (i : ItemR) (sx : Store), sx.categories = s.categories →
        itemResolveCat uid d i sx = .ok (F i)) ∧
      (∀ i : ItemR, (F i).id = i.id ∧ (F i).user_id = i.user_id ∧
        (F i).local_id = i.local_id) := by
  cases href : dget d "categoryId" with
  | none =>
    right
    refine ⟨fun i => i, fun i sx _ => ?_, fun i => ⟨rfl, rfl, rfl⟩⟩
    unfold itemResolveCat
    rw [href]
  | some ref =>
    by_cases htru : ref.truthy = true
    · cases hcs : scalarOneOrNone (catRefMatch uid ref) s.categories with
      | error e =>
        left
        refine ⟨e, fun i => ?_⟩
        unfold itemResolveCat
        rw [href]
        dsimp only
        rw [if_pos htru, hcs]
      | ok ocat =>
        cases ocat with
        | none =>
          right
          refine ⟨fun i => i, fun i sx hx => ?_, fun i => ⟨rfl, rfl, rfl⟩⟩
          unfold itemResolveCat
          rw [href]
          dsimp only
          rw [if_pos htru, hx, hcs]
        | some cat =>
          right
          refine ⟨fun i => { i with category_id := cat.id }, fun i sx hx => ?_,
            fun i => ⟨rfl, rfl, rfl⟩⟩
          unfold itemResolveCat
          rw [href]
          dsimp only
          rw [if_pos htru, hx, hcs]
    · right
      refine ⟨fun i => i, fun i sx _ => ?_, fun i => ⟨rfl, rfl, rfl⟩⟩
      unfold itemResolveCat
      rw [href]
      dsimp only
      rw [if_neg htru]


lemma syncItemCreate_idem (uid : String) (op : SyncOperation) (s : Store)
    (h1 : (syncItemCreate uid op s).1.success = true) :
    (syncItemCreate uid op (syncItemCreate uid op s).2).1.success = true ∧
      (syncItemCreate uid op (syncItemCreate uid op s).2).1.server_id =
        (syncItemCreate uid op s).1.server_id ∧
      ((syncItemCreate uid op (syncItemCreate uid op s).2).2).items.map (fun i => i.id) =
        ((syncItemCreate uid op s).2).items.map (fun i => i.id) := by
  cases hs : scalarOneOrNone (itemMatchLocal uid op.local_id) s.items with
  | error e =>
    exfalso
    unfold syncItemCreate at h1
    rw [hs] at h1
    cases h1
  | ok oex =>
    cases oex with
    | some ex =>
      have hfil := scalarOneOrNone_ok_some hs
      have hpredex : itemMatchLocal uid op.local_id ex = true := by
        have hmem : ex ∈ s.items.filter (itemMatchLocal uid op.local_id) := by
          rw [hfil]; simp
        exact (List.mem_filter.mp hmem).2
      cases hd : op.data with
      | none =>
        have hrun1 : syncItemCreate uid op s =
            ({ operation_id := op.id, success := true, entity_id := some op.entity_id,
               server_id := some ex.id.pyStr }, s) := by
          unfold syncItemCreate
          rw [hs, hd]
        have hs1 : (syncItemCreate uid op s).2 = s := by rw [hrun1]
        rw [hs1]
        refine ⟨h1, rfl, ?_⟩
        rw [hs1]
      | some d =>
        by_cases htr : dataTruthy op = true
        case neg =>
          have hrun1 : syncItemCreate uid op s =
              ({ operation_id := op.id, success := true, entity_id := some op.entity_id,
                 server_id := some ex.id.pyStr }, s) := by
            unfold syncItemCreate
            rw [hs, hd]
            dsimp only
            rw [if_neg htr]
          have hs1 : (syncItemCreate uid op s).2 = s := by rw [hrun1]
          rw [hs1]
          refine ⟨h1, rfl, ?_⟩
          rw [hs1]
        case pos =>
          rcases itemResolveCat_char uid d s with ⟨e, hFail⟩ | ⟨F, hF, hFpres⟩
          · exfalso
            unfold syncItemCreate at h1
            rw [hs, hd] at h1
            dsimp only at h1
            rw [if_pos htr, hFail ex] at h1
            cases h1
          · set ex' := itemApplyData d (F ex) with hex'
            have hexid : ex'.id = ex.id := by
              rw [hex']
              rw [(itemApplyData_untouched d (F ex)).2.1, (hFpres ex).1]
            have hexuser : ex'.user_id = ex.user_id := by
              rw [hex']
              rw [(itemApplyData_untouched d (F ex)).2.2.1, (hFpres ex).2.1]
            have hexlocal : ex'.local_id = ex.local_id := by
              rw [hex']
              rw [(itemApplyData_untouched d (F ex)).2.2.2, (hFpres ex).2.2]
            have hpredex' : itemMatchLocal uid op.local_id ex' = true := by
              unfold itemMatchLocal at hpredex ⊢
              rw [hexuser, hexlocal]
              exact hpredex
            have hrun1 : syncItemCreate uid op s =
                ({ operation_id := op.id, success := true, entity_id := some op.entity_id,
                   server_id := some ex'.id.pyStr },
                 { s with
                   items := updateWhere (itemMatchLocal uid op.local_id) (fun _ => ex') s.items }) := by
              unfold syncItemCreate
              rw [hs, hd]
              dsimp only
              rw [if_pos htr, hF ex s rfl]
            set s1 := (syncItemCreate uid op s).2 with hs1v
            have hcats1 : s1.categories = s.categories := by rw [hs1v, hrun1]
            have hfil2 : s1.items.filter (itemMatchLocal uid op.local_id) = [ex'] := by
              rw [hs1v, hrun1]
              exact filter_updateWhere_const _ ex' s.items ex hfil hpredex'
            have hs2 : scalarOneOrNone (itemMatchLocal uid op.local_id) s1.items =
                .ok (some ex') := scalarOneOrNone_eq_some hfil2
            set ex'' := itemApplyData d (F ex') with hex''
            have hexid2 : ex''.id = ex'.id := by
              rw [hex'']
              rw [(itemApplyData_untouched d (F ex')).2.1, (hFpres ex').1]
            have hrun2 : syncItemCreate uid op s1 =
                ({ operation_id := op.id, success := true, entity_id := some op.entity_id,
                   server_id := some ex''.id.pyStr },
                 { s1 with
                   items := updateWhere (itemMatchLocal uid op.local_id) (fun _ => ex'') s1.items }) := by
              unfold syncItemCreate
              rw [hs2, hd]
              dsimp only
              rw [if_pos htr, hF ex' s1 hcats1]
            rw [hrun2]
            refine ⟨rfl, ?_, ?_⟩
            · rw [hrun1]
              dsimp only
              rw [hexid2]
            · dsimp only
              apply map_updateWhere
              intro x hx hpx
              have hxex : x = ex' := by
                have hxmem : x ∈ s1.items.filter (itemMatchLocal uid op.local_id) :=
                  List.mem_filter.mpr ⟨hx, hpx⟩
                rw [hfil2] at hxmem
                simpa using hxmem
              rw [hxex, hexid2]
    | none =>
      cases hd : op.data with
      | none =>
        exfalso
        unfold syncItemCreate at h1
        rw [hs, hd] at h1
        cases h1
      | some d =>
        cases href : dget d "categoryId" with
        | none =>
          exfalso
          unfold syncItemCreate at h1
          rw [hs, hd] at h1
          dsimp only at h1
          rw [href] at h1
          dsimp only at h1
          simp [itemFlushOk] at h1
          exact absurd h1 (by simp [exnResult])
        | some ref =>
          by_cases htru : ref.truthy = true
          case neg =>
            exfalso
            unfold syncItemCreate at h1
            rw [hs, hd] at h1
            dsimp only at h1
            rw [href] at h1
            dsimp only at h1
            rw [if_neg htru] at h1
            dsimp only at h1
            simp [itemFlushOk, exnResult] at h1
          case pos =>
            cases hcs : scalarOneOrNone (catRefMatch uid ref) s.categories with
            | error e =>
              exfalso
              unfold syncItemCreate at h1
              rw [hs, hd] at h1
              dsimp only at h1
              rw [href] at h1
              dsimp only at h1
              rw [if_pos htru, hcs] at h1
              dsimp only at h1
              simp [exnResult] at h1
            | ok ocat =>
              cases ocat with
              | none =>
                exfalso
                unfold syncItemCreate at h1
                rw [hs, hd] at h1
                dsimp only at h1
                rw [href] at h1
                dsimp only at h1
                rw [if_pos htru, hcs] at h1
                dsimp only at h1
                simp [itemFlushOk, exnResult] at h1
              | some cat =>
                set item : ItemR :=
                  { id := .vStr (mkServerId s.nextId)
                    user_id := .vStr uid
                    category_id := cat.id
                    name := dgetD d "name" (.vStr "Untitled")
                    description := dgetD d "description" .vNull
                    quantity := dgetD d "quantity" (.vInt 0)
                    unit := dgetD d "unit" (.vStr "pieces")
                    minimum_stock := dgetD d "minimumStock" (.vInt 0)
                    expiry_date := dgetD d "expiryDate" .vNull
                    brand := dgetD d "brand" .vNull
                    notes := dgetD d "notes" .vNull
                    supplier_name := dgetD d "supplierName" .vNull
                    supplier_contact := dgetD d "supplierContact" .vNull
                    purchase_link := dgetD d "purchaseLink" .vNull
                    image_uri := dgetD d "imageUri" .vNull
                    is_active := dgetD d "isActive" (.vBool true)
                    is_critical := dgetD d "isCritical" (.vBool false)
                    local_id := .vStr op.local_id
                    created_at := nowV
                    updated_at := nowV } with hitem
                by_cases hflush : itemFlushOk item = true
                case neg =>
                  exfalso
                  unfold syncItemCreate at h1
                  rw [hs, hd] at h1
                  dsimp only at h1
                  rw [href] at h1
                  dsimp only at h1
                  rw [if_pos htru, hcs] at h1
                  dsimp only at h1
                  rw [if_neg hflush] at h1
                  simp [exnResult] at h1
                case pos =>
                  have htr : dataTruthy op = true := by
                    unfold dataTruthy
                    rw [hd]
                    simp [dget_ne_nil href]
                  have hrun1 : syncItemCreate uid op s =
                      ({ operation_id := op.id, success := true,
                         entity_id := some op.entity_id,
                         server_id := some (mkServerId s.nextId) },
                       { s with items := s.items ++ [item], nextId := s.nextId + 1 }) := by
                    unfold syncItemCreate
                    rw [hs, hd]
                    dsimp only
                    rw [href]
                    dsimp only
                    rw [if_pos htru, hcs]
                    dsimp only
                    rw [if_pos hflush]
                  set s1 := (syncItemCreate uid op s).2 with hs1v
                  have hcats1 : s1.categories = s.categories := by rw [hs1v, hrun1]
                  have hpreditem : itemMatchLocal uid op.local_id item = true := by
                    rw [hitem]
                    unfold itemMatchLocal
                    simp
                  have hfil2 : s1.items.filter (itemMatchLocal uid op.local_id) = [item] := by
                    rw [hs1v, hrun1]
                    dsimp only
                    rw [List.filter_append, scalarOneOrNone_ok_none hs, List.filter_cons,
                      if_pos hpreditem]
                    rfl
                  have hs2 : scalarOneOrNone (itemMatchLocal uid op.local_id) s1.items =
                      .ok (some item) := scalarOneOrNone_eq_some hfil2
                  have hres2 : itemResolveCat uid d item s1 =
                      .ok { item with category_id := cat.id } := by
                    unfold itemResolveCat
                    rw [href]
                    dsimp only
                    rw [if_pos htru, hcats1, hcs]
                  set ex'' := itemApplyData d { item with category_id := cat.id } with hex''
                  have hexid2 : ex''.id = item.id := by
                    rw [hex'']
                    exact (itemApplyData_untouched d _).2.1
                  have hrun2 : syncItemCreate uid op s1 =
                      ({ operation_id := op.id, success := true,
                         entity_id := some op.entity_id,
                         server_id := some ex''.id.pyStr },
                       { s1 with
                         items := updateWhere (itemMatchLocal uid op.local_id) (fun _ => ex'') s1.items }) := by
                    unfold syncItemCreate
                    rw [hs2, hd]
                    dsimp only
                    rw [if_pos htr, hres2]
                  rw [hrun2]
                  refine ⟨rfl, ?_, ?_⟩
                  · rw [hrun1]
                    dsimp only
                    rw [hexid2, hitem]
                    rfl
                  · dsimp only
                    apply map_updateWhere
                    intro x hx hpx
                    have hxit : x = item := by
                      have hxmem : x ∈ s1.items.filter (itemMatchLocal uid op.local_id) :=
                        List.mem_filter.mpr ⟨hx, hpx⟩
                      rw [hfil2] at hxmem
                      simpa using hxmem
                    rw [hxit, hexid2]


/-- Inserting line items touches only `orderItems` and the id supply. -/
lemma addOrderItems_orders (oid : Value) (rows : List Payload) (st : Store) :
    (addOrderItems oid rows st).orders = st.orders := by
  induction rows generalizing st with
  | nil => rfl
  | cons r rest ih =>
    unfold addOrderItems at ih ⊢
    rw [List.foldl_cons]
    exact ih _

/-- A present key yields a value. -/
lemma dmem_dget {d : Payload} {k : String} (h : dmem d k = true) :
    ∃ v, dget d k = some v := by
  unfold dmem at h
  unfold dget
  cases hf : d.find? (fun kv => kv.1 == k) with
  | none => rw [hf] at h; cases h
  | some kv => exact ⟨kv.2, rfl⟩

/-- `d.get(k, dflt)` ignores the default when the key is present. -/
lemma dgetD_of_dget {d : Payload} {k : String} {v : Value} (h : dget d k = some v)
    (dflt : Value) : dgetD d k dflt = v := by
  unfold dgetD
  rw [h]
  rfl

/-- The order upsert writes keep identity, ownership and the order
code. -/
lemma orderApplyData_ok_fields {d : Payload} {o o' : OrderR}
    (h : orderApplyData d o = .ok o') :
    o'.id = o.id ∧ o'.user_id = o.user_id ∧ o'.local_id = o.local_id ∧
      o'.order_id = o.order_id := by
  unfold orderApplyData at h
  split at h
  · split at h
    · cases h
    · injection h with h
      subst h
      exact ⟨rfl, rfl, rfl, rfl⟩
  · injection h with h
    subst h
    exact ⟨rfl, rfl, rfl, rfl⟩

/-- Whether the order upsert writes raise depends only on the payload,
not on the row. -/
lemma orderApplyData_total (d : Payload) :
    (∀ o : OrderR, ∃ o', orderApplyData d o = .ok o') ∨
      (∀ o : OrderR, ∃ e, orderApplyData d o = .error e) := by
  by_cases hmem : dmem d "status" = true
  · cases hp : parseStatus (dgetD d "status" .vNull) with
    | none =>
      right
      intro o
      refine ⟨"ValueError: not a valid OrderStatus", ?_⟩
      unfold orderApplyData
      rw [if_pos hmem, hp]
    | some st =>
      left
      intro o
      refine ⟨orderApplyRest d { o with status := st }, ?_⟩
      unfold orderApplyData
      rw [if_pos hmem, hp]
  · left
    intro o
    refine ⟨orderApplyRest d o, ?_⟩
    unfold orderApplyData
    rw [if_neg hmem]


/-- Second submission of an order CREATE after a successful first one:
the (unique) stored row is found again and updated in place, reporting
its server id and inserting no new order row. -/
lemma syncOrderCreate_second (uid : String) (op : SyncOperation) (d : Payload)
    (hd : op.data = some d) (s1 : Store) (order : OrderR)
    (hfil2 : s1.orders.filter (orderMatchLocalOrCode uid op.local_id (dget d "orderId")) =
      [order])
    (hpstatus : dmem d "status" = true → parseStatus (dgetD d "status" .vNull) ≠ none) :
    (syncOrderCreate uid op s1).1.success = true ∧
      (syncOrderCreate uid op s1).1.server_id = some order.id.pyStr ∧
      ((syncOrderCreate uid op s1).2).orders.map (fun o => o.id) =
        s1.orders.map (fun o => o.id) := by
  have hs2 : scalarOneOrNone (orderMatchLocalOrCode uid op.local_id (dget d "orderId"))
      s1.orders = .ok (some order) := scalarOneOrNone_eq_some hfil2
  by_cases htr : dataTruthy op = true
  case neg =>
    have hrun2 : syncOrderCreate uid op s1 =
        ({ operation_id := op.id, success := true, entity_id := some op.entity_id,
           server_id := some order.id.pyStr }, s1) := by
      unfold syncOrderCreate
      rw [hd]
      dsimp only
      rw [hs2]
      dsimp only
      rw [if_neg htr]
    rw [hrun2]
    exact ⟨rfl, rfl, rfl⟩
  case pos =>
    have hex : ∃ ex', orderApplyData d order = .ok ex' := by
      rcases orderApplyData_total d with hOK | hFail
      · exact hOK order
      · exfalso
        obtain ⟨e, he⟩ := hFail order
        unfold orderApplyData at he
        by_cases hmem : dmem d "status" = true
        · rcases hps : parseStatus (dgetD d "status" .vNull) with _ | st
          · exact hpstatus hmem hps
          · rw [if_pos hmem, hps] at he; cases he
        · rw [if_neg hmem] at he; cases he
    obtain ⟨ex', hex'⟩ := hex
    have hfields := orderApplyData_ok_fields hex'
    have hres2 : (syncOrderCreate uid op s1).1 =
        { operation_id := op.id, success := true, entity_id := some op.entity_id,
          server_id := some order.id.pyStr } := by
      unfold syncOrderCreate
      rw [hd]
      dsimp only
      rw [hs2]
      dsimp only
      rw [if_pos htr, hex']
    have horders2 : ((syncOrderCreate uid op s1).2).orders =
        updateWhere (orderMatchLocalOrCode uid op.local_id (dget d "orderId"))
          (fun _ => ex') s1.orders := by
      unfold syncOrderCreate
      rw [hd]
      dsimp only
      rw [hs2]
      dsimp only
      rw [if_pos htr, hex']
      dsimp only
      cases hit : op.itemsData with
      | none => rfl
      | some rows =>
        dsimp only
        by_cases hre : rows.isEmpty = true
        · rw [if_pos hre]
        · rw [if_neg hre, addOrderItems_orders]
    refine ⟨by rw [hres2], by rw [hres2], ?_⟩
    rw [horders2]
    apply map_updateWhere
    intro x hx hpx
    have hxord : x = order := by
      have hxmem : x ∈ s1.orders.filter
          (orderMatchLocalOrCode uid op.local_id (dget d "orderId")) :=
        List.mem_filter.mpr ⟨hx, hpx⟩
      rw [hfil2] at hxmem
      simpa using hxmem
    rw [hxord, hfields.1]


lemma syncOrderCreate_idem (uid : String) (op : SyncOperation) (s : Store)
    (h1 : (syncOrderCreate uid op s).1.success = true) :
    (syncOrderCreate uid op (syncOrderCreate uid op s).2).1.success = true ∧
      (syncOrderCreate uid op (syncOrderCreate uid op s).2).1.server_id =
        (syncOrderCreate uid op s).1.server_id ∧
      ((syncOrderCreate uid op (syncOrderCreate uid op s).2).2).orders.map (fun o => o.id) =
        ((syncOrderCreate uid op s).2).orders.map (fun o => o.id) := by
  cases hd : op.data with
  | none =>
    cases hs : scalarOneOrNone (orderMatchLocalOrCode uid op.local_id none) s.orders with
    | error e =>
      exfalso
      unfold syncOrderCreate at h1
      rw [hd] at h1
      dsimp only at h1
      rw [hs] at h1
      simp [exnResult] at h1
    | ok oex =>
      cases oex with
      | some ex =>
        have hrun1 : syncOrderCreate uid op s =
            ({ operation_id := op.id, success := true, entity_id := some op.entity_id,
               server_id := some ex.id.pyStr }, s) := by
          unfold syncOrderCreate
          rw [hd]
          dsimp only
          rw [hs]
        have hs1 : (syncOrderCreate uid op s).2 = s := by rw [hrun1]
        rw [hs1]
        refine ⟨h1, rfl, ?_⟩
        rw [hs1]
      | none =>
        exfalso
        unfold syncOrderCreate at h1
        rw [hd] at h1
        dsimp only at h1
        rw [hs] at h1
        simp [exnResult] at h1
  | some d =>
    cases hs : scalarOneOrNone (orderMatchLocalOrCode uid op.local_id (dget d "orderId"))
        s.orders with
    | error e =>
      exfalso
      unfold syncOrderCreate at h1
      rw [hd] at h1
      dsimp only at h1
      rw [hs] at h1
      simp [exnResult] at h1
    | ok oex =>
      cases oex with
      | some ex =>
        by_cases htr : dataTruthy op = true
        case neg =>
          have hrun1 : syncOrderCreate uid op s =
              ({ operation_id := op.id, success := true, entity_id := some op.entity_id,
                 server_id := some ex.id.pyStr }, s) := by
            unfold syncOrderCreate
            rw [hd]
            dsimp only
            rw [hs]
            dsimp only
            rw [if_neg htr]
          have hs1 : (syncOrderCreate uid op s).2 = s := by rw [hrun1]
          rw [hs1]
          refine ⟨h1, rfl, ?_⟩
          rw [hs1]
        case pos =>
          rcases orderApplyData_total d with hOK | hFail
          case inr =>
            exfalso
            obtain ⟨e, he⟩ := hFail ex
            unfold syncOrderCreate at h1
            rw [hd] at h1
            dsimp only at h1
            rw [hs] at h1
            dsimp only at h1
            rw [if_pos htr, he] at h1
            simp [exnResult] at h1
          case inl =>
            obtain ⟨ex', hex'⟩ := hOK ex
            have hfields := orderApplyData_ok_fields hex'
            have hfil := scalarOneOrNone_ok_some hs
            have hpredex : orderMatchLocalOrCode uid op.local_id (dget d "orderId") ex
                = true := by
              have hmem : ex ∈ s.orders.filter
                  (orderMatchLocalOrCode uid op.local_id (dget d "orderId")) := by
                rw [hfil]; simp
              exact (List.mem_filter.mp hmem).2
            have hpredex' : orderMatchLocalOrCode uid op.local_id (dget d "orderId") ex'
                = true := by
              unfold orderMatchLocalOrCode at hpredex ⊢
              rw [hfields.2.1, hfields.2.2.1, hfields.2.2.2]
              exact hpredex
            have hres1 : (syncOrderCreate uid op s).1 =
                { operation_id := op.id, success := true, entity_id := some op.entity_id,
                  server_id := some ex.id.pyStr } := by
              unfold syncOrderCreate
              rw [hd]
              dsimp only
              rw [hs]
              dsimp only
              rw [if_pos htr, hex']
            have horders1 : ((syncOrderCreate uid op s).2).orders =
                updateWhere (orderMatchLocalOrCode uid op.local_id (dget d "orderId"))
                  (fun _ => ex') s.orders := by
              unfold syncOrderCreate
              rw [hd]
              dsimp only
              rw [hs]
              dsimp only
              rw [if_pos htr, hex']
              dsimp only
              cases hit : op.itemsData with
              | none => rfl
              | some rows =>
                dsimp only
                by_cases hre : rows.isEmpty = true
                · rw [if_pos hre]
                · rw [if_neg hre, addOrderItems_orders]
            have hfil2 : ((syncOrderCreate uid op s).2).orders.filter
                (orderMatchLocalOrCode uid op.local_id (dget d "orderId")) = [ex'] := by
              rw [horders1]
              exact filter_updateWhere_const _ ex' s.orders ex hfil hpredex'
            have hpstatus : dmem d "status" = true →
                parseStatus (dgetD d "status" .vNull) ≠ none := by
              intro hmem hps
              obtain ⟨o₂, ho₂⟩ := hOK ex
              unfold orderApplyData at ho₂
              rw [if_pos hmem, hps] at ho₂
              cases ho₂
            have hsecond := syncOrderCreate_second uid op d hd
              ((syncOrderCreate uid op s).2) ex' hfil2 hpstatus
            refine ⟨hsecond.1, ?_, ?_⟩
            · rw [hsecond.2.1, hres1]
              try dsimp only
              try rw [hfields.1]
            · rw [hsecond.2.2]
      | none =>
        cases hg : scalarOneOrNone
            (fun o => o.order_id == dgetD d "orderId" (.vStr ("ORD-" ++ op.local_id.take 8)))
            s.orders with
        | error e =>
          exfalso
          unfold syncOrderCreate at h1
          rw [hd] at h1
          dsimp only at h1
          rw [hs] at h1
          dsimp only at h1
          rw [hg] at h1
          simp [exnResult] at h1
        | ok ghit =>
          cases hghit : ghit with
          | none =>
            cases hp : parseStatus (dgetD d "status" (.vStr "pending")) with
            | none =>
              exfalso
              unfold syncOrderCreate at h1
              rw [hd] at h1
              dsimp only at h1
              rw [hs] at h1
              dsimp only at h1
              rw [hg] at h1
              rw [hghit] at h1
              dsimp only at h1
              rw [hp] at h1
              simp [exnResult] at h1
            | some st =>
              set s₁ : Store := s with hs₁
              set order : OrderR :=
                { id := .vStr (mkServerId s₁.nextId)
                  user_id := .vStr uid
                  order_id := dgetD d "orderId" (.vStr ("ORD-" ++ op.local_id.take 8))
                  total_items := dgetD d "totalItems" (.vInt 0)
                  total_units := dgetD d "totalUnits" (.vInt 0)
                  status := st
                  exported_at := if (parseDatetimeV (dgetD d "exportedAt" .vNull)).truthy then parseDatetimeV (dgetD d "exportedAt" .vNull) else nowV
                  ordered_at := parseDatetimeV (dgetD d "orderedAt" .vNull)
                  received_at := parseDatetimeV (dgetD d "receivedAt" .vNull)
                  applied_at := parseDatetimeV (dgetD d "appliedAt" .vNull)
                  declined_at := parseDatetimeV (dgetD d "declinedAt" .vNull)
                  local_id := .vStr op.local_id
                  created_at := nowV
                  updated_at := nowV } with hord
              by_cases hflush : orderFlushOk order s₁ = true
              case neg =>
                exfalso
                unfold syncOrderCreate at h1
                rw [hd] at h1
                dsimp only at h1
                rw [hs] at h1
                dsimp only at h1
                rw [hg] at h1
                rw [hghit] at h1
                dsimp only at h1
                rw [hp] at h1
                dsimp only at h1
                rw [if_neg hflush] at h1
                simp [exnResult] at h1
              case pos =>
                have hres1 : (syncOrderCreate uid op s).1 =
                    { operation_id := op.id, success := true, entity_id := some op.entity_id,
                       server_id := some order.id.pyStr } := by
                  unfold syncOrderCreate
                  rw [hd]
                  dsimp only
                  rw [hs]
                  dsimp only
                  rw [hg]
                  rw [hghit]
                  dsimp only
                  rw [hp]
                  dsimp only
                  rw [if_pos hflush]
                have horders1 : ((syncOrderCreate uid op s).2).orders =
                    s₁.orders ++ [order] := by
                  unfold syncOrderCreate
                  rw [hd]
                  dsimp only
                  rw [hs]
                  dsimp only
                  rw [hg]
                  rw [hghit]
                  dsimp only
                  rw [hp]
                  dsimp only
                  rw [if_pos hflush]
                  dsimp only
                  cases hit : op.itemsData with
                  | none => rfl
                  | some rows =>
                    dsimp only
                    by_cases hre : rows.isEmpty = true
                    · rw [if_pos hre]
                    · rw [if_neg hre, addOrderItems_orders]
                have hpredorder : orderMatchLocalOrCode uid op.local_id (dget d "orderId")
                    order = true := by
                  unfold orderMatchLocalOrCode
                  rw [hord]
                  simp
                have hfil2 : ((syncOrderCreate uid op s).2).orders.filter
                    (orderMatchLocalOrCode uid op.local_id (dget d "orderId")) = [order] := by
                  rw [horders1, List.filter_append]
                  have : s₁.orders.filter
                      (orderMatchLocalOrCode uid op.local_id (dget d "orderId")) = [] := by
                    rw [hs₁]
                    exact scalarOneOrNone_ok_none hs
                  rw [this, List.filter_cons, if_pos hpredorder]
                  rfl
                have hpstatus : dmem d "status" = true →
                    parseStatus (dgetD d "status" .vNull) ≠ none := by
                  intro hmem hnone
                  obtain ⟨v, hv⟩ := dmem_dget hmem
                  rw [dgetD_of_dget hv] at hp hnone
                  rw [hp] at hnone
                  cases hnone
                have hsecond := syncOrderCreate_second uid op d hd
                  ((syncOrderCreate uid op s).2) order hfil2 hpstatus
                refine ⟨hsecond.1, ?_, ?_⟩
                · rw [hsecond.2.1, hres1]
                · rw [hsecond.2.2]
          | some gx =>
            cases hp : parseStatus (dgetD d "status" (.vStr "pending")) with
            | none =>
              exfalso
              unfold syncOrderCreate at h1
              rw [hd] at h1
              dsimp only at h1
              rw [hs] at h1
              dsimp only at h1
              rw [hg] at h1
              rw [hghit] at h1
              dsimp only at h1
              rw [hp] at h1
              simp [exnResult] at h1
            | some st =>
              set s₁ : Store := { s with nextId := s.nextId + 1 } with hs₁
              set order : OrderR :=
                { id := .vStr (mkServerId s₁.nextId)
                  user_id := .vStr uid
                  order_id := .vStr ((dgetD d "orderId" (.vStr ("ORD-" ++ op.local_id.take 8))).pyStr ++ "-" ++ uid.take 4 ++ "-" ++ mkSuffix s.nextId)
                  total_items := dgetD d "totalItems" (.vInt 0)
                  total_units := dgetD d "totalUnits" (.vInt 0)
                  status := st
                  exported_at := if (parseDatetimeV (dgetD d "exportedAt" .vNull)).truthy then parseDatetimeV (dgetD d "exportedAt" .vNull) else nowV
                  ordered_at := parseDatetimeV (dgetD d "orderedAt" .vNull)
                  received_at := parseDatetimeV (dgetD d "receivedAt" .vNull)
                  applied_at := parseDatetimeV (dgetD d "appliedAt" .vNull)
                  declined_at := parseDatetimeV (dgetD d "declinedAt" .vNull)
                  local_id := .vStr op.local_id
                  created_at := nowV
                  updated_at := nowV } with hord
              by_cases hflush : orderFlushOk order s₁ = true
              case neg =>
                exfalso
                unfold syncOrderCreate at h1
                rw [hd] at h1
                dsimp only at h1
                rw [hs] at h1
                dsimp only at h1
                rw [hg] at h1
                rw [hghit] at h1
                dsimp only at h1
                rw [hp] at h1
                dsimp only at h1
                rw [if_neg hflush] at h1
                simp [exnResult] at h1
              case pos =>
                have hres1 : (syncOrderCreate uid op s).1 =
                    { operation_id := op.id, success := true, entity_id := some op.entity_id,
                       server_id := some order.id.pyStr } := by
                  unfold syncOrderCreate
                  rw [hd]
                  dsimp only
                  rw [hs]
                  dsimp only
                  rw [hg]
                  rw [hghit]
                  dsimp only
                  rw [hp]
                  dsimp only
                  rw [if_pos hflush]
                have horders1 : ((syncOrderCreate uid op s).2).orders =
                    s₁.orders ++ [order] := by
                  unfold syncOrderCreate
                  rw [hd]
                  dsimp only
                  rw [hs]
                  dsimp only
                  rw [hg]
                  rw [hghit]
                  dsimp only
                  rw [hp]
                  dsimp only
                  rw [if_pos hflush]
                  dsimp only
                  cases hit : op.itemsData with
                  | none => rfl
                  | some rows =>
                    dsimp only
                    by_cases hre : rows.isEmpty = true
                    · rw [if_pos hre]
                    · rw [if_neg hre, addOrderItems_orders]
                have hpredorder : orderMatchLocalOrCode uid op.local_id (dget d "orderId")
                    order = true := by
                  unfold orderMatchLocalOrCode
                  rw [hord]
                  simp
                have hfil2 : ((syncOrderCreate uid op s).2).orders.filter
                    (orderMatchLocalOrCode uid op.local_id (dget d "orderId")) = [order] := by
                  rw [horders1, List.filter_append]
                  have : s₁.orders.filter
                      (orderMatchLocalOrCode uid op.local_id (dget d "orderId")) = [] := by
                    rw [hs₁]
                    exact scalarOneOrNone_ok_none hs
                  rw [this, List.filter_cons, if_pos hpredorder]
                  rfl
                have hpstatus : dmem d "status" = true →
                    parseStatus (dgetD d "status" .vNull) ≠ none := by
                  intro hmem hnone
                  obtain ⟨v, hv⟩ := dmem_dget hmem
                  rw [dgetD_of_dget hv] at hp hnone
                  rw [hp] at hnone
                  cases hnone
                have hsecond := syncOrderCreate_second uid op d hd
                  ((syncOrderCreate uid op s).2) order hfil2 hpstatus
                refine ⟨hsecond.1, ?_, ?_⟩
                · rw [hsecond.2.1, hres1]
                · rw [hsecond.2.2]


/-- The stored server ids of the operation's entity type. -/
def entityIds (et : SyncEntityType) (s : Store) : List Value :=
  match et with
  | .category => s.categories.map (fun c => c.id)
  | .item => s.items.map (fun i => i.id)
  | .order => s.orders.map (fun o => o.id)

/-- C5.  Re-submitting an identical CREATE operation (same client-local
id, any entity type) against the store produced by a successful first
submission is idempotent: the second submission also succeeds, reports
the same resolved server id, and updates the existing row in place
instead of inserting a duplicate (the stored id sequence of that entity
type is unchanged). -/
theorem create_idempotent (uid : String) (op : SyncOperation) (s : Store)
    (hcr : op.type = SyncOperationType.create)
    (h1 : ((processOperation uid op s).1).success = true) :
    ((processOperation uid op ((processOperation uid op s).2)).1).success = true ∧
      ((processOperation uid op ((processOperation uid op s).2)).1).server_id =
        ((processOperation uid op s).1).server_id ∧
      entityIds op.entity ((processOperation uid op ((processOperation uid op s).2)).2) =
        entityIds op.entity ((processOperation uid op s).2) := by
  cases hent : op.entity with
  | category =>
    have hdisp : ∀ sx : Store, processOperation uid op sx = syncCategoryCreate uid op sx := by
      intro sx
      simp only [processOperation, syncCategory, hent, hcr]
    simp only [hdisp] at h1 ⊢
    simp only [entityIds]
    exact syncCategoryCreate_idem uid op s h1
  | item =>
    have hdisp : ∀ sx : Store, processOperation uid op sx = syncItemCreate uid op sx := by
      intro sx
      simp only [processOperation, syncItem, hent, hcr]
    simp only [hdisp] at h1 ⊢
    simp only [entityIds]
    exact syncItemCreate_idem uid op s h1
  | order =>
    have hdisp : ∀ sx : Store, processOperation uid op sx = syncOrderCreate uid op sx := by
      intro sx
      simp only [processOperation, syncOrder, hent, hcr]
    simp only [hdisp] at h1 ⊢
    simp only [entityIds]
    exact syncOrderCreate_idem uid op s h1


/-- Witness fixture for C5: the same category CREATE submitted twice
against an empty store. -/
def c5wOp : SyncOperation :=
  { id := "opc", type := .create, entity := .category, entity_id := "", local_id := "c1",
    data := some [("name", .vStr "Meds")], itemsData := none }

theorem create_idempotent_witness :
    ((processOperation "u1" c5wOp ((processOperation "u1" c5wOp Store.empty).2)).1).success =
        true ∧
      ((processOperation "u1" c5wOp ((processOperation "u1" c5wOp Store.empty).2)).1).server_id =
        ((processOperation "u1" c5wOp Store.empty).1).server_id ∧
      entityIds c5wOp.entity
          ((processOperation "u1" c5wOp ((processOperation "u1" c5wOp Store.empty).2)).2) =
        entityIds c5wOp.entity ((processOperation "u1" c5wOp Store.empty).2) :=
  create_idempotent "u1" c5wOp Store.empty (by decide) (by decide)

end VitalTrack

namespace VitalTrack

/-- `d.get(k, dflt)` falls back to the default when the key is absent. -/
lemma dgetD_of_none {d : Payload} {k : String} (h : dget d k = none) (dflt : Value) :
    dgetD d k dflt = dflt := by
  unfold dgetD
  rw [h]
  rfl

/-- Appending a dash-led suffix changes a string. -/
lemma code_append_ne (C t : String) (ht : t.length ≠ 0) :
    Value.vStr (C ++ t) ≠ Value.vStr C := by
  intro h
  injection h with h
  have hlen : (C ++ t).length = C.length := by rw [h]
  rw [String.length_append] at hlen
  omega

/-- C7.  Two order CREATE operations from different owners carrying the
same client-supplied order code both succeed: the first keeps the
requested code, the second is stored under a deterministically
disambiguated code (the requested code, a dash, the first four
characters of the owner id, a dash, and a fresh suffix) that is globally
unique in the final store, and no error is surfaced for the second
operation. -/
theorem order_code_collision (uid1 uid2 : String) (op1 op2 : SyncOperation) (s : Store)
    (d1 d2 : Payload) (C : String)
    (hu : uid1 ≠ uid2)
    (hty1 : op1.type = .create) (hty2 : op2.type = .create)
    (hent1 : op1.entity = .order) (hent2 : op2.entity = .order)
    (h1d : op1.data = some d1) (h2d : op2.data = some d2)
    (h1c : dget d1 "orderId" = some (.vStr C)) (h2c : dget d2 "orderId" = some (.vStr C))
    (hst1 : dget d1 "status" = none) (hst2 : dget d2 "status" = none)
    (hti1 : dget d1 "totalItems" = none) (htu1 : dget d1 "totalUnits" = none)
    (hti2 : dget d2 "totalItems" = none) (htu2 : dget d2 "totalUnits" = none)
    (hfresh1 : s.orders.filter (orderMatchLocalOrCode uid1 op1.local_id (some (.vStr C))) = [])
    (hfresh2 : s.orders.filter (orderMatchLocalOrCode uid2 op2.local_id (some (.vStr C))) = [])
    (hglobal : s.orders.filter (fun o => o.order_id == Value.vStr C) = [])
    (hnoext : ∀ o ∈ s.orders, ∀ t : String, o.order_id ≠ .vStr (C ++ t)) :
    ((processOperation uid1 op1 s).1).success = true ∧
      ((processOperation uid2 op2 ((processOperation uid1 op1 s).2)).1).success = true ∧
      ((processOperation uid2 op2 ((processOperation uid1 op1 s).2)).1).error = none ∧
      (∃ suff : String,
        ∃ o2 ∈ ((processOperation uid2 op2 ((processOperation uid1 op1 s).2)).2).orders,
          o2.user_id = .vStr uid2 ∧
          o2.order_id = .vStr (C ++ "-" ++ uid2.take 4 ++ "-" ++ suff) ∧
          (((processOperation uid2 op2 ((processOperation uid1 op1 s).2)).2).orders.countP
            (fun o => o.order_id == o2.order_id)) = 1) ∧
      (∃ o1 ∈ ((processOperation uid2 op2 ((processOperation uid1 op1 s).2)).2).orders,
        o1.user_id = .vStr uid1 ∧ o1.order_id = .vStr C) := by
  -- dispatch: both operations are order CREATEs
  have hdisp1 : ∀ st : Store, processOperation uid1 op1 st = syncOrderCreate uid1 op1 st := by
    intro st
    unfold processOperation
    rw [hent1]
    dsimp only
    unfold syncOrder
    rw [hty1]
  have hdisp2 : ∀ st : Store, processOperation uid2 op2 st = syncOrderCreate uid2 op2 st := by
    intro st
    unfold processOperation
    rw [hent2]
    dsimp only
    unfold syncOrder
    rw [hty2]
  simp only [hdisp1, hdisp2]
  -- first run: user 1 inserts the order with the requested code
  have hlk1 : scalarOneOrNone (orderMatchLocalOrCode uid1 op1.local_id (dget d1 "orderId"))
      s.orders = .ok none := by
    apply scalarOneOrNone_eq_none
    rw [h1c]
    exact hfresh1
  have hq1 : dgetD d1 "orderId" (.vStr ("ORD-" ++ op1.local_id.take 8)) = .vStr C :=
    dgetD_of_dget h1c _
  have hglb1 : scalarOneOrNone
      (fun o => o.order_id == dgetD d1 "orderId" (.vStr ("ORD-" ++ op1.local_id.take 8)))
      s.orders = .ok none := by
    rw [hq1]
    exact scalarOneOrNone_eq_none hglobal
  have hp1 : parseStatus (dgetD d1 "status" (.vStr "pending")) = some .pending := by
    rw [dgetD_of_none hst1]
    rfl
  set order1 : OrderR :=
    { id := .vStr (mkServerId s.nextId)
      user_id := .vStr uid1
      order_id := dgetD d1 "orderId" (.vStr ("ORD-" ++ op1.local_id.take 8))
      total_items := dgetD d1 "totalItems" (.vInt 0)
      total_units := dgetD d1 "totalUnits" (.vInt 0)
      status := .pending
      exported_at := if (parseDatetimeV (dgetD d1 "exportedAt" .vNull)).truthy then parseDatetimeV (dgetD d1 "exportedAt" .vNull) else nowV
      ordered_at := parseDatetimeV (dgetD d1 "orderedAt" .vNull)
      received_at := parseDatetimeV (dgetD d1 "receivedAt" .vNull)
      applied_at := parseDatetimeV (dgetD d1 "appliedAt" .vNull)
      declined_at := parseDatetimeV (dgetD d1 "declinedAt" .vNull)
      local_id := .vStr op1.local_id
      created_at := nowV
      updated_at := nowV } with hord1
  have hc1o : order1.order_id = .vStr C := by
    rw [hord1]
    exact hq1
  have hti1f : order1.total_items = .vInt 0 := by
    rw [hord1]
    exact dgetD_of_none hti1 _
  have htu1f : order1.total_units = .vInt 0 := by
    rw [hord1]
    exact dgetD_of_none htu1 _
  have hflush1 : orderFlushOk order1 s = true := by
    unfold orderFlushOk
    rw [hc1o, hti1f, htu1f]
    simp only [Bool.and_eq_true]
    refine ⟨⟨⟨rfl, rfl⟩, rfl⟩, ?_⟩
    rw [List.all_eq_true]
    intro x hx
    have hnp := List.filter_eq_nil_iff.mp hglobal x hx
    simpa using hnp
  have hres1 : (syncOrderCreate uid1 op1 s).1 =
      { operation_id := op1.id, success := true, entity_id := some op1.entity_id,
        server_id := some order1.id.pyStr } := by
    unfold syncOrderCreate
    rw [h1d]
    dsimp only
    rw [hlk1]
    dsimp only
    rw [hglb1]
    dsimp only
    rw [hp1]
    dsimp only
    rw [if_pos hflush1]
  have hstore1 : ((syncOrderCreate uid1 op1 s).2).orders = s.orders ++ [order1] := by
    unfold syncOrderCreate
    rw [h1d]
    dsimp only
    rw [hlk1]
    dsimp only
    rw [hglb1]
    dsimp only
    rw [hp1]
    dsimp only
    rw [if_pos hflush1]
    dsimp only
    cases hit : op1.itemsData with
    | none => rfl
    | some rows =>
      dsimp only
      by_cases hre : rows.isEmpty = true
      · rw [if_pos hre]
      · rw [if_neg hre, addOrderItems_orders]
  set sA : Store := (syncOrderCreate uid1 op1 s).2 with hsA
  -- second run: user 2 collides on the code and is disambiguated
  have hu12 : (Value.vStr uid1 == Value.vStr uid2) = false := by
    rw [beq_eq_false_iff_ne]
    intro hEq
    injection hEq with hEq
    exact hu hEq
  have hmu1 : order1.user_id = Value.vStr uid1 := by
    rw [hord1]
  have hpred2o1 : orderMatchLocalOrCode uid2 op2.local_id (some (.vStr C)) order1 = false := by
    unfold orderMatchLocalOrCode
    rw [hmu1, hu12]
    rfl
  have hlk2 : scalarOneOrNone (orderMatchLocalOrCode uid2 op2.local_id (dget d2 "orderId"))
      sA.orders = .ok none := by
    apply scalarOneOrNone_eq_none
    rw [h2c, hstore1, List.filter_append, hfresh2]
    simp [hpred2o1]
  have hq2 : dgetD d2 "orderId" (.vStr ("ORD-" ++ op2.local_id.take 8)) = .vStr C :=
    dgetD_of_dget h2c _
  have hglb2 : scalarOneOrNone
      (fun o => o.order_id == dgetD d2 "orderId" (.vStr ("ORD-" ++ op2.local_id.take 8)))
      sA.orders = .ok (some order1) := by
    apply scalarOneOrNone_eq_some
    rw [hq2, hstore1, List.filter_append, hglobal]
    simp [hc1o, hq1]
  have hp2 : parseStatus (dgetD d2 "status" (.vStr "pending")) = some .pending := by
    rw [dgetD_of_none hst2]
    rfl
  set s1B : Store := { sA with nextId := sA.nextId + 1 } with hs1B
  set order2 : OrderR :=
    { id := .vStr (mkServerId s1B.nextId)
      user_id := .vStr uid2
      order_id := .vStr ((dgetD d2 "orderId" (.vStr ("ORD-" ++ op2.local_id.take 8))).pyStr ++ "-" ++ uid2.take 4 ++ "-" ++ mkSuffix sA.nextId)
      total_items := dgetD d2 "totalItems" (.vInt 0)
      total_units := dgetD d2 "totalUnits" (.vInt 0)
      status := .pending
      exported_at := if (parseDatetimeV (dgetD d2 "exportedAt" .vNull)).truthy then parseDatetimeV (dgetD d2 "exportedAt" .vNull) else nowV
      ordered_at := parseDatetimeV (dgetD d2 "orderedAt" .vNull)
      received_at := parseDatetimeV (dgetD d2 "receivedAt" .vNull)
      applied_at := parseDatetimeV (dgetD d2 "appliedAt" .vNull)
      declined_at := parseDatetimeV (dgetD d2 "declinedAt" .vNull)
      local_id := .vStr op2.local_id
      created_at := nowV
      updated_at := nowV } with hord2
  have hcode2 : order2.order_id =
      .vStr (C ++ "-" ++ uid2.take 4 ++ "-" ++ mkSuffix sA.nextId) := by
    rw [hord2, hq2]
    rfl
  have hcode2r : order2.order_id =
      .vStr (C ++ ("-" ++ uid2.take 4 ++ "-" ++ mkSuffix sA.nextId)) := by
    rw [hcode2]
    simp [String.append_assoc]
  have htne : ("-" ++ uid2.take 4 ++ "-" ++ mkSuffix sA.nextId).length ≠ 0 := by
    simp only [String.length_append]
    have hdash : ("-" : String).length = 1 := rfl
    omega
  have hti2f : order2.total_items = .vInt 0 := by
    rw [hord2]
    exact dgetD_of_none hti2 _
  have htu2f : order2.total_units = .vInt 0 := by
    rw [hord2]
    exact dgetD_of_none htu2 _
  have hs1Borders : s1B.orders = s.orders ++ [order1] := by
    rw [hs1B]
    exact hstore1
  have hso_ne : ∀ x ∈ s.orders, (x.order_id == order2.order_id) = false := by
    intro x hx
    rw [beq_eq_false_iff_ne, hcode2r]
    exact hnoext x hx _
  have hord1_ne : (order1.order_id == order2.order_id) = false := by
    rw [beq_eq_false_iff_ne, hc1o, hcode2r]
    exact (code_append_ne C _ htne).symm
  have hflush2 : orderFlushOk order2 s1B = true := by
    unfold orderFlushOk
    rw [hcode2r, hti2f, htu2f, hs1Borders]
    simp only [Bool.and_eq_true]
    refine ⟨⟨⟨rfl, rfl⟩, rfl⟩, ?_⟩
    rw [List.all_append]
    simp only [Bool.and_eq_true]
    constructor
    · rw [List.all_eq_true]
      intro x hx
      simp only [Bool.not_eq_true', beq_eq_false_iff_ne]
      exact hnoext x hx _
    · simp only [List.all_cons, List.all_nil, Bool.and_true, Bool.not_eq_true',
        beq_eq_false_iff_ne]
      first
      | rw [hc1o]
      | rw [hq1]
      exact (code_append_ne C _ htne).symm
  have hres2 : (syncOrderCreate uid2 op2 sA).1 =
      { operation_id := op2.id, success := true, entity_id := some op2.entity_id,
        server_id := some order2.id.pyStr } := by
    unfold syncOrderCreate
    rw [h2d]
    dsimp only
    rw [hlk2]
    dsimp only
    rw [hglb2]
    dsimp only
    rw [hp2]
    dsimp only
    rw [if_pos hflush2]
  have hstore2 : ((syncOrderCreate uid2 op2 sA).2).orders = s1B.orders ++ [order2] := by
    unfold syncOrderCreate
    rw [h2d]
    dsimp only
    rw [hlk2]
    dsimp only
    rw [hglb2]
    dsimp only
    rw [hp2]
    dsimp only
    rw [if_pos hflush2]
    dsimp only
    cases hit : op2.itemsData with
    | none => rfl
    | some rows =>
      dsimp only
      by_cases hre : rows.isEmpty = true
      · rw [if_pos hre]
      · rw [if_neg hre, addOrderItems_orders]
  have hc0 : s.orders.countP (fun o => o.order_id == order2.order_id) = 0 := by
    rw [List.countP_eq_zero]
    intro x hx
    simp [hso_ne x hx]
  refine ⟨?_, ?_, ?_, ?_, ?_⟩
  · rw [hres1]
  · rw [hres2]
  · rw [hres2]
  · refine ⟨mkSuffix sA.nextId, order2, ?_, ?_, ?_, ?_⟩
    · rw [hstore2]
      simp
    · rw [hord2]
    · exact hcode2
    · rw [hstore2, hs1Borders, List.countP_append, List.countP_append, hc0]
      simp [List.countP_cons, hord1_ne]
  · refine ⟨order1, ?_, ?_, ?_⟩
    · rw [hstore2, hs1Borders]
      simp
    · exact hmu1
    · exact hc1o


end VitalTrack

namespace VitalTrack

/-- Payload of the first colliding order CREATE. -/
def c7wD1 : Payload := [("orderId", Value.vStr "ORD-1")]

/-- Payload of the second colliding order CREATE. -/
def c7wD2 : Payload := [("orderId", Value.vStr "ORD-1")]

/-- First order CREATE operation (owner `alice000`). -/
def c7wOp1 : SyncOperation :=
  { id := "o1"
    type := .create
    entity := .order
    entity_id := "e1"
    local_id := "loc1"
    data := some c7wD1
    itemsData := none }

/-- Second order CREATE operation (owner `bobby000`), same order code. -/
def c7wOp2 : SyncOperation :=
  { id := "o2"
    type := .create
    entity := .order
    entity_id := "e2"
    local_id := "loc2"
    data := some c7wD2
    itemsData := none }

/-- Witness: the collision scenario run on concrete fixtures over the
empty store. -/
theorem order_code_collision_witness :
    ((processOperation "alice000" c7wOp1 Store.empty).1).success = true ∧
      ((processOperation "bobby000" c7wOp2 ((processOperation "alice000" c7wOp1 Store.empty).2)).1).success = true ∧
      ((processOperation "bobby000" c7wOp2 ((processOperation "alice000" c7wOp1 Store.empty).2)).1).error = none ∧
      (∃ suff : String,
        ∃ o2 ∈ ((processOperation "bobby000" c7wOp2 ((processOperation "alice000" c7wOp1 Store.empty).2)).2).orders,
          o2.user_id = .vStr "bobby000" ∧
          o2.order_id = .vStr ("ORD-1" ++ "-" ++ "bobby000".take 4 ++ "-" ++ suff) ∧
          (((processOperation "bobby000" c7wOp2 ((processOperation "alice000" c7wOp1 Store.empty).2)).2).orders.countP
            (fun o => o.order_id == o2.order_id)) = 1) ∧
      (∃ o1 ∈ ((processOperation "bobby000" c7wOp2 ((processOperation "alice000" c7wOp1 Store.empty).2)).2).orders,
        o1.user_id = .vStr "alice000" ∧ o1.order_id = .vStr "ORD-1") :=
  order_code_collision "alice000" "bobby000" c7wOp1 c7wOp2 Store.empty c7wD1 c7wD2 "ORD-1"
    (by decide) rfl rfl rfl rfl rfl rfl rfl rfl rfl rfl rfl rfl rfl rfl rfl rfl rfl
    (by intro o ho; simp [Store.empty] at ho)

end VitalTrack
